import Mathlib

/-!
# Verification of the `gp` plotting engine core (`src/plot.c`)

Shallow embedding of the dataset ring-buffer store, the per-chunk range
cache, the TIME_UNWRAP derived-column pipeline, the axis model and the
derived-column garbage sweep of `plot.c`, together with proofs and
refutations of the specification claims.

Modelling conventions:
* `double` values are embedded as `Val := Option ℚ`: `some q` is a finite
  value, `none` is a non-finite value (NaN).  C comparisons on doubles are
  false when an operand is NaN, and arithmetic propagates NaN.
* C `int` indices that can carry the sentinel `-1` are embedded as `ℤ`;
  plain non-negative indices as `ℕ`.
* Fixed preprocessor capacities from the missing header `plot.h`
  (`PLOT_SUBTRACT`, `PLOT_RCACHE_SIZE`, `PLOT_DATASET_MAX`, ...) are kept
  abstract as fields of the `Plot` state, so every theorem quantifies over
  the build constants.
* The embedding covers the `lz4_compress == 0` configuration, which is the
  default set in `plotAlloc` (plot.c:96); in that configuration
  `plotDataChunkFetch` / `plotDataChunkWrite` are never invoked by
  `plotDataGet` / `plotDataWrite` / `plotDataInsert`.
* `tN & chunk_MASK` is written `tN % (1 <<< chunk_SHIFT)` and
  `tN >> chunk_SHIFT` is `tN >>> chunk_SHIFT`; `plotDataAlloc`
  (plot.c:512) defines `chunk_MASK = (1 << chunk_SHIFT) - 1`, for which
  the two agree.
-/

namespace GP

/-- Finite doubles are rationals; `none` models a non-finite value (NaN).
`fp_isfinite` (plot.c:47) is `Option.isSome`. -/
abbrev Val := Option ℚ

/-- fp_isfinite (plot.c:47-56): true exactly on finite values. -/
def fp_isfinite (x : Val) : Bool := x.isSome

/-- C `<` on doubles: false whenever an operand is non-finite. -/
def fLt (a b : Val) : Bool :=
  match a, b with
  | some x, some y => decide (x < y)
  | _, _ => false

/-- C `+` on doubles: a non-finite operand poisons the result. -/
def fAdd (a b : Val) : Val :=
  match a, b with
  | some x, some y => some (x + y)
  | _, _ => none

/-- Pointwise update of a function-backed array. -/
def updF {α : Type} (f : ℕ → α) (i : ℕ) (a : α) : ℕ → α :=
  fun j => if j = i then a else f j

@[simp] theorem updF_same {α : Type} (f : ℕ → α) (i : ℕ) (a : α) :
    updF f i a i = a := by simp [updF]

@[simp] theorem updF_other {α : Type} (f : ℕ → α) (i j : ℕ) (a : α)
    (h : j ≠ i) : updF f i a j = f j := by simp [updF, h]

/-- Per-(entry, chunk) slot of the range cache (`rcache[N].chunk[kN]`). -/
structure RChunk where
  computed : Bool
  finite : Bool
  fmin : ℚ
  fmax : ℚ
deriving DecidableEq

/-- One range-cache entry (`plot_t.rcache[N]`), keyed by dataset and
column, holding the per-chunk slots and the aggregate min/max. -/
structure RCacheEntry where
  busy : Bool
  data_N : ℕ
  column_N : ℤ
  cached : Bool
  fmin : ℚ
  fmax : ℚ
  chunk : ℕ → RChunk

/-- The derived-column slot variants (`plot_t.data[dN].sub[sN]`), the tag
`busy` together with the `op` union member that the tag selects
(plot.h is not in the sources; the variants and their fields are exactly
those read by plot.c). Stateful operators carry their running state. -/
inductive SubSlot where
  | FREE : SubSlot
  | TIME_UNWRAP (column_1 : ℤ) (unwrap : ℚ) (prev prev2 : Val) : SubSlot
  | SCALE (column_1 : ℤ) (scale offset : ℚ) : SubSlot
  | BINARY_SUBTRACTION (column_1 column_2 : ℤ) : SubSlot
  | BINARY_ADDITION (column_1 column_2 : ℤ) : SubSlot
  | BINARY_MULTIPLICATION (column_1 column_2 : ℤ) : SubSlot
  | BINARY_HYPOTENUSE (column_1 column_2 : ℤ) : SubSlot
  | FILTER_DIFFERENCE (column_1 : ℤ) (state : Val) : SubSlot
  | FILTER_CUMULATIVE (column_1 : ℤ) (state : Val) : SubSlot
  | FILTER_BITMASK (column_1 : ℤ) (arg_1 arg_2 : ℚ) : SubSlot
  | FILTER_LOW_PASS (column_1 : ℤ) (arg_1 : ℚ) (state : Val) : SubSlot
  | RESAMPLE (column_X column_in_X column_in_Y : ℤ) (in_data_N : ℕ) : SubSlot
  | POLYFIT (column_X : ℤ) (poly_N : ℕ) (coefs : ℕ → ℚ) : SubSlot

/-- Whether a slot is free (`busy == SUBTRACT_FREE`). -/
def SubSlot.isFree : SubSlot → Bool
  | .FREE => true
  | _ => false

/-- One dataset (`plot_t.data[dN]`): a chunked ring buffer of rows of
`column_N + PLOT_SUBTRACT` values.  `raw kN` is the chunk buffer, `none`
when the chunk is not allocated (NULL pointer). -/
structure Dataset where
  column_N : ℕ
  length_N : ℕ
  chunk_SHIFT : ℕ
  head_N : ℕ
  tail_N : ℕ
  id_N : ℕ
  sub_N : ℕ
  raw : ℕ → Option (ℕ → Val)
  sub : ℕ → SubSlot

/-- Axis type tag (`AXIS_FREE`, `AXIS_BUSY_X`, `AXIS_BUSY_Y`). -/
inductive AxisBusy where
  | FREE : AxisBusy
  | BUSY_X : AxisBusy
  | BUSY_Y : AxisBusy
deriving DecidableEq

/-- One axis (`plot_t.axis[aN]`). -/
structure Axis where
  busy : AxisBusy
  slave : Bool
  slave_N : ℕ
  scale : ℚ
  offset : ℚ
  lock_scale : Bool

/-- Figure drawing styles. -/
inductive Drawing where
  | LINE : Drawing
  | DASH : Drawing
  | DOT : Drawing
deriving DecidableEq

/-- One figure (`plot_t.figure[fN]`). -/
structure Figure where
  busy : Bool
  hidden : Bool
  drawing : Drawing
  width : ℕ
  data_N : ℕ
  column_X : ℤ
  column_Y : ℤ
  axis_X : ℕ
  axis_Y : ℕ

/-- The screen viewport rectangle, in pixels. -/
structure Viewport where
  min_x : ℤ
  max_x : ℤ
  min_y : ℤ
  max_y : ℤ

/-- The per-figure draw progress tag (`SKETCH_FINISHED`,
`SKETCH_STARTED`, `SKETCH_INTERRUPTED`). -/
inductive SketchPhase where
  | FINISHED : SketchPhase
  | STARTED : SketchPhase
  | INTERRUPTED : SketchPhase
deriving DecidableEq

/-- One sketch chunk (`plot_t.sketch[N]`): a buffer of interleaved
`(X, Y)` data-space coordinates with its fill length and the intrusive
list link (`-1` terminates). -/
structure Sketch where
  figure_N : ℕ
  drawing : Drawing
  width : ℕ
  chunk : Option (ℕ → Val)
  length : ℕ
  linked : ℤ

/-- The per-figure draw cursor (`plot_t.draw[fN]`): the resumable state
of the progressive renderer. -/
structure DrawState where
  sketch : SketchPhase
  rN : ℕ
  id_N : ℕ
  skipped : Bool
  line : Bool
  last_X : Val
  last_Y : Val
  list_self : ℤ

/-- The engine state (`plot_t`), restricted to the subsystems the claims
exercise.  The `*Size`/`*Max` fields stand for the fixed capacities from
the missing header `plot.h` and are quantified over by the theorems. -/
structure Plot where
  subtractK : ℕ
  datasetMax : ℕ
  rcacheSize : ℕ
  axesMax : ℕ
  figuresMax : ℕ
  data : ℕ → Dataset
  rcache : ℕ → RCacheEntry
  rcache_ID : ℕ
  rcache_wipe_data_N : ℤ
  rcache_wipe_chunk_N : ℤ
  axis : ℕ → Axis
  figure : ℕ → Figure
  viewport : Viewport
  on_X : ℤ
  on_Y : ℤ
  sketchMax : ℕ
  sketchChunkSize : ℕ
  sketch : ℕ → Sketch
  sketch_list_garbage : ℤ
  sketch_list_todraw : ℤ
  sketch_list_current : ℤ
  sketch_list_current_end : ℤ
  draw : ℕ → DrawState
  draw_in_progress : Bool

/-- plotDataChunkN (plot.c:720-728): chunk index of a ring row index. -/
def plotDataChunkN (pl : Plot) (dN : ℕ) (rN : ℕ) : ℕ :=
  rN >>> (pl.data dN).chunk_SHIFT

/-- plotDataGet (plot.c:603-631), in the `lz4_compress == 0`
configuration: a read view of row `*rN` (as a function of the column
index into the row) and the advanced ring cursor; `none` at the tail or
when the chunk buffer is missing (the cursor is then not advanced). -/
def plotDataGet (pl : Plot) (dN : ℕ) (rN : ℕ) : Option (ℕ → Val) × ℕ :=
  let d := pl.data dN
  if rN ≠ d.tail_N then
    let kN := rN >>> d.chunk_SHIFT
    let jN := rN % (1 <<< d.chunk_SHIFT)
    match d.raw kN with
    | some buf =>
        (some (fun c => buf ((d.column_N + pl.subtractK) * jN + c)),
          if rN < d.length_N - 1 then rN + 1 else 0)
    | none => (none, rN)
  else (none, rN)

/-- Read a row value the way every plot.c consumer does:
`fval = (cN < 0) ? id_N : row[cN]` — column `-1` is the synthetic row
index column whose value is the logical id. -/
def readCol (row : ℕ → Val) (id_N : ℕ) (cN : ℤ) : Val :=
  if cN < 0 then some (id_N : ℚ) else row cN.toNat

/-- plotDataRangeCacheWipe (plot.c:633-647): clear the `computed` bit of
chunk `kN` and the aggregate `cached` bit in every busy entry of dataset
`dN`. -/
def plotDataRangeCacheWipe (pl : Plot) (dN kN : ℕ) : Plot :=
  { pl with rcache := fun N =>
      if N < pl.rcacheSize ∧ (pl.rcache N).busy = true ∧ (pl.rcache N).data_N = dN then
        { pl.rcache N with
          cached := false,
          chunk := updF (pl.rcache N).chunk kN
            { (pl.rcache N).chunk kN with computed := false } }
      else pl.rcache N }

/-- The once-per-streak wipe step shared by plotDataWrite (plot.c:665-672)
and plotDataInsert (plot.c:1344-1351): wipe chunk `kN` of dataset `dN`
unless the `(rcache_wipe_data_N, rcache_wipe_chunk_N)` memo already
records it. -/
def wipeMemo (pl : Plot) (dN kN : ℕ) : Plot :=
  if pl.rcache_wipe_data_N ≠ (dN : ℤ) ∨ pl.rcache_wipe_chunk_N ≠ (kN : ℤ) then
    { plotDataRangeCacheWipe pl dN kN with
      rcache_wipe_data_N := (dN : ℤ),
      rcache_wipe_chunk_N := (kN : ℤ) }
  else pl

/-- plotDataWrite (plot.c:649-686), in the `lz4_compress == 0`
configuration.  Returns the plot after the memoised range-cache wipe,
the write target — chunk index and flat base offset of the row inside
the chunk buffer, standing for the returned row pointer — when the row
is available, and the advanced ring cursor. -/
def plotDataWrite (pl : Plot) (dN : ℕ) (rN : ℕ) :
    Plot × Option (ℕ × ℕ) × ℕ :=
  let d := pl.data dN
  if rN ≠ d.tail_N then
    let kN := rN >>> d.chunk_SHIFT
    let jN := rN % (1 <<< d.chunk_SHIFT)
    let pl2 := wipeMemo pl dN kN
    match d.raw kN with
    | some _ =>
        (pl2, some (kN, (d.column_N + pl.subtractK) * jN),
          if rN < d.length_N - 1 then rN + 1 else 0)
    | none => (pl2, none, rN)
  else (pl, none, rN)

/-- plotDataInsert (plot.c:1326-1376), in the `lz4_compress == 0`
configuration: copy `column_N` values into the row at `tail_N`, advance
the tail, and on meeting the head evict the oldest row by advancing
`head_N`, bumping `id_N` and keeping `sub_N` on the head.  When the
target chunk buffer is missing the row is dropped (only the memoised
range-cache wipe has happened). -/
def plotDataInsert (pl : Plot) (dN : ℕ) (row : List Val) : Plot :=
  let d := pl.data dN
  let cN := d.column_N
  let lN := d.length_N
  let hN := d.head_N
  let tN := d.tail_N
  let kN := tN >>> d.chunk_SHIFT
  let jN := tN % (1 <<< d.chunk_SHIFT)
  let pl2 := wipeMemo pl dN kN
  match d.raw kN with
  | none => pl2
  | some buf =>
    let base := (cN + pl.subtractK) * jN
    let buf2 : ℕ → Val :=
      fun i => if base ≤ i ∧ i < base + cN then row.getD (i - base) none else buf i
    let tN2 := if tN < lN - 1 then tN + 1 else 0
    let d2 :=
      if hN = tN2 then
        let hN2 := if hN < lN - 1 then hN + 1 else 0
        { d with raw := updF d.raw kN (some buf2),
                 tail_N := tN2,
                 id_N := d.id_N + 1,
                 head_N := hN2,
                 sub_N := if d.sub_N = tN2 then hN2 else d.sub_N }
      else
        { d with raw := updF d.raw kN (some buf2), tail_N := tN2 }
    { pl2 with data := updF pl2.data dN d2 }

/-- Number of valid rows of a dataset: `(tail_N - head_N) mod length_N`
with the C negative-remainder fixup (plot.c:585-586). -/
def ringDist (d : Dataset) : ℕ :=
  (d.tail_N + d.length_N - d.head_N) % d.length_N

/-- The raw cell of row `r`, column `c` of a dataset: what a row pointer
obtained at ring index `r` reads at offset `c`. -/
def rowCell (pl : Plot) (dN : ℕ) (r : ℕ) (c : ℕ) : Val :=
  let d := pl.data dN
  match d.raw (r >>> d.chunk_SHIFT) with
  | some buf => buf ((d.column_N + pl.subtractK) * (r % (1 <<< d.chunk_SHIFT)) + c)
  | none => none

/-- The values of column `c` over the valid row span `[head_N, tail_N)`,
in ring order from head to tail. -/
def validColumn (pl : Plot) (dN : ℕ) (c : ℕ) : List Val :=
  let d := pl.data dN
  (List.range (ringDist d)).map
    (fun i => rowCell pl dN ((d.head_N + i) % d.length_N) c)

/-- A freshly allocated dataset in the state `plotDataAlloc`
(plot.c:463-547) leaves it in: cursors zeroed, every slot free, and the
chunk buffers covering `length_N` rows allocated (with indeterminate
contents, here `none`). -/
def mkDataset (cN lN shift : ℕ) : Dataset where
  column_N := cN
  length_N := lN
  chunk_SHIFT := shift
  head_N := 0
  tail_N := 0
  id_N := 0
  sub_N := 0
  raw := fun k => if k < (lN + (1 <<< shift) - 1) / (1 <<< shift)
                  then some (fun _ => none) else none
  sub := fun _ => .FREE

/-- An idle range-cache entry (calloc'd `plot_t`). -/
def mkRCacheEntry : RCacheEntry where
  busy := false
  data_N := 0
  column_N := 0
  cached := false
  fmin := 0
  fmax := 0
  chunk := fun _ => ⟨false, false, 0, 0⟩

/-- An idle axis (calloc'd `plot_t`). -/
def mkAxis : Axis where
  busy := .FREE
  slave := false
  slave_N := 0
  scale := 0
  offset := 0
  lock_scale := false

/-- An idle figure (calloc'd `plot_t`). -/
def mkFigure : Figure where
  busy := false
  hidden := false
  drawing := .LINE
  width := 2
  data_N := 0
  column_X := 0
  column_Y := 0
  axis_X := 0
  axis_Y := 0

/-- A fresh engine state with one allocated dataset `0` and the given
build capacities; everything else idle, as after `plotAlloc` +
`plotDataAlloc`.  `rcache_wipe_*` start at `0` (calloc), which the memo
logic treats like any stale pair. -/
def mkPlot (K dMax rSize aMax fMax : ℕ) (cN lN shift : ℕ) : Plot where
  subtractK := K
  datasetMax := dMax
  rcacheSize := rSize
  axesMax := aMax
  figuresMax := fMax
  data := fun d => if d = 0 then mkDataset cN lN shift else
    { mkDataset 0 0 0 with raw := fun _ => none }
  rcache := fun _ => mkRCacheEntry
  rcache_ID := 0
  rcache_wipe_data_N := 0
  rcache_wipe_chunk_N := 0
  axis := fun _ => mkAxis
  figure := fun _ => mkFigure
  viewport := ⟨0, 100, 0, 100⟩
  on_X := -1
  on_Y := -1
  sketchMax := 4
  sketchChunkSize := 8
  sketch := fun N => ⟨0, .LINE, 2, none, 0, if N < 4 - 1 then N + 1 else -1⟩
  sketch_list_garbage := 0
  sketch_list_todraw := -1
  sketch_list_current := -1
  sketch_list_current_end := -1
  draw := fun _ => ⟨.FINISHED, 0, 0, false, false, none, none, -1⟩
  draw_in_progress := false

/-- plotAxisScaleManual (plot.c:2023-2039): set `scale = 1/(max-min)`,
`offset = -min/(max-min)`; no-op on an out-of-range, free or slave
axis. -/
def plotAxisScaleManual (pl : Plot) (aN : ℕ) (mn mx : ℚ) : Plot :=
  if aN ≥ pl.axesMax then pl
  else if (pl.axis aN).busy = .FREE then pl
  else if (pl.axis aN).slave = true then pl
  else
    { pl with
      axis := updF pl.axis aN
        ({ pl.axis aN with scale := 1 / (mx - mn), offset := - mn / (mx - mn) }) }

/-- plotAxisScaleZoom (plot.c:2205-2232): adjust `(scale, offset)` so the
pixel `origin` stays fixed; no-op on an out-of-range or slave axis;
clears `lock_scale`. -/
def plotAxisScaleZoom (pl : Plot) (aN : ℕ) (origin : ℤ) (zoom : ℚ) : Plot :=
  if aN ≥ pl.axesMax then pl
  else if (pl.axis aN).slave = true then pl
  else
    let a := pl.axis aN
    let a2 :=
      if a.busy = .BUSY_X then
        { a with
          offset := a.offset * zoom +
            ((pl.viewport.min_x - origin : ℤ) : ℚ) /
              ((pl.viewport.max_x - pl.viewport.min_x : ℤ) : ℚ) * (zoom - 1),
          scale := a.scale * zoom }
      else if a.busy = .BUSY_Y then
        { a with
          offset := a.offset * zoom +
            ((pl.viewport.max_y - origin : ℤ) : ℚ) /
              ((pl.viewport.min_y - pl.viewport.max_y : ℤ) : ℚ) * (zoom - 1),
          scale := a.scale * zoom }
      else a
    { pl with axis := updF pl.axis aN ({ a2 with lock_scale := false }) }

/-- plotAxisScaleMove (plot.c:2234-2257): pan by `move` pixels; no-op on
an out-of-range or slave axis; clears `lock_scale`. -/
def plotAxisScaleMove (pl : Plot) (aN : ℕ) (move : ℤ) : Plot :=
  if aN ≥ pl.axesMax then pl
  else if (pl.axis aN).slave = true then pl
  else
    let a := pl.axis aN
    let a2 :=
      if a.busy = .BUSY_X then
        { a with
          offset := a.offset +
            (move : ℚ) / ((pl.viewport.max_x - pl.viewport.min_x : ℤ) : ℚ) }
      else if a.busy = .BUSY_Y then
        { a with
          offset := a.offset +
            (move : ℚ) / ((pl.viewport.min_y - pl.viewport.max_y : ℤ) : ℚ) }
      else a
    { pl with axis := updF pl.axis aN ({ a2 with lock_scale := false }) }

/-- plotAxisConv (plot.c:2442-2471): map a data value to a pixel
coordinate, composing the slave relation (if any) and then the viewport
transform selected by the axis type. -/
def plotAxisConv (pl : Plot) (aN : ℕ) (fval : ℚ) : ℚ :=
  let a := pl.axis aN
  let s0 := a.scale
  let o0 := a.offset
  let s1 := if a.slave = true then s0 * (pl.axis a.slave_N).scale else s0
  let o1 := if a.slave = true
            then o0 * (pl.axis a.slave_N).scale + (pl.axis a.slave_N).offset else o0
  let s2 := if a.busy = .BUSY_X then
              s1 * ((pl.viewport.max_x - pl.viewport.min_x : ℤ) : ℚ)
            else if a.busy = .BUSY_Y then
              s1 * ((pl.viewport.min_y - pl.viewport.max_y : ℤ) : ℚ)
            else s1
  let o2 := if a.busy = .BUSY_X then
              o1 * ((pl.viewport.max_x - pl.viewport.min_x : ℤ) : ℚ) + (pl.viewport.min_x : ℚ)
            else if a.busy = .BUSY_Y then
              o1 * ((pl.viewport.min_y - pl.viewport.max_y : ℤ) : ℚ) + (pl.viewport.max_y : ℚ)
            else o1
  fval * s2 + o2

/-- The viewport composition applied by `plotAxisConv` after the axis's
linear map: the `[0,1]`-normalized value is sent to pixels according to
the axis type. -/
def axisViewportCompose (pl : Plot) (busy : AxisBusy) (v : ℚ) : ℚ :=
  match busy with
  | .BUSY_X => v * ((pl.viewport.max_x - pl.viewport.min_x : ℤ) : ℚ) + (pl.viewport.min_x : ℚ)
  | .BUSY_Y => v * ((pl.viewport.min_y - pl.viewport.max_y : ℤ) : ℚ) + (pl.viewport.max_y : ℚ)
  | .FREE => v

/-- The `action` argument of plotAxisSlave. -/
inductive SlaveAction where
  | ENABLE : SlaveAction
  | HOLD_AS_IS : SlaveAction
  | DISABLE : SlaveAction
deriving DecidableEq

/-- plotAxisSlave (plot.c:2504-2600): establish, hold or dissolve a
slave relation `aN → bN`.  Rejected (no-op) when an index is out of
range, the axes coincide, the base is itself a slave, or `aN` is the
base of another slave axis. -/
def plotAxisSlave (pl : Plot) (aN : ℕ) (bN : ℤ) (scale offset : ℚ)
    (action : SlaveAction) : Plot :=
  if aN ≥ pl.axesMax then pl
  else
    let bN : ℤ := if action = .DISABLE then ((pl.axis aN).slave_N : ℤ) else bN
    if bN < 0 ∨ bN ≥ (pl.axesMax : ℤ) then pl
    else if bN = (aN : ℤ) then pl
    else if (pl.axis bN.toNat).slave = true then pl
    else if (List.range pl.axesMax).any (fun N =>
        decide ((pl.axis N).busy ≠ .FREE) && (pl.axis N).slave &&
        decide ((pl.axis N).slave_N = aN)) then pl
    else
      match action with
      | .ENABLE =>
          if (pl.axis aN).slave = false then
            { pl with
              axis := updF pl.axis aN
                ({ pl.axis aN with
                   slave := true
                   slave_N := bN.toNat
                   scale := scale
                   offset := offset }),
              on_X := if (aN : ℤ) = pl.on_X then bN else pl.on_X,
              on_Y := if (aN : ℤ) = pl.on_Y then bN else pl.on_Y }
          else pl
      | .HOLD_AS_IS =>
          if (pl.axis aN).slave = false then
            { pl with
              axis := updF pl.axis aN
                ({ pl.axis aN with
                   slave := true
                   slave_N := bN.toNat
                   scale := (pl.axis aN).scale / (pl.axis bN.toNat).scale
                   offset := ((pl.axis aN).offset - (pl.axis bN.toNat).offset) /
                     (pl.axis bN.toNat).scale }),
              on_X := if (aN : ℤ) = pl.on_X then bN else pl.on_X,
              on_Y := if (aN : ℤ) = pl.on_Y then bN else pl.on_Y }
          else pl
      | .DISABLE =>
          if (pl.axis aN).slave = true then
            { pl with
              axis := updF pl.axis aN
                ({ pl.axis aN with
                   slave := false
                   scale := (pl.axis aN).scale * (pl.axis bN.toNat).scale
                   offset := (pl.axis aN).offset * (pl.axis bN.toNat).scale +
                     (pl.axis bN.toNat).offset }) }
          else pl

/-- A state with axis 0 busy as an X axis (identity `[0,1]` relation)
and every other axis idle; the slave-relation claims are exercised on
it. -/
def axisTestPlot : Plot :=
  let pl := mkPlot 1 1 1 4 1 1 1 0
  { pl with
    axis := updF pl.axis 0 ({ mkAxis with busy := .BUSY_X, scale := 1 }) }

/-- `axisTestPlot` after `plotAxisSlave(1, 0, 1, 0, ENABLE)`: axis 1
(still of FREE type) is a slave of the X axis 0 with the identity local
relation. -/
def axisSlavedPlot : Plot := plotAxisSlave axisTestPlot 1 0 1 0 .ENABLE

/-- A state whose axis 1 is a slave (of axis 0); used to exercise the
slave-axis no-op behavior of the manual scaling primitives. -/
def slaveAxisPlot : Plot :=
  let pl := mkPlot 1 1 1 4 1 1 1 0
  { pl with
    axis := updF pl.axis 1
      ({ mkAxis with busy := .BUSY_X, slave := true, slave_N := 0 }) }

/-- Running state of a TIME_UNWRAP slot: `(unwrap, prev, prev2)`,
i.e. the loop variables `(offset, X_2, X_3)` of plot.c:999-1001. -/
structure TimeState where
  unwrap : ℚ
  prev : Val
  prev2 : Val
deriving DecidableEq

/-- The fresh TIME_UNWRAP state installed when the computation starts
from the head row (plot.c:991-996): `unwrap = 0`, `prev = prev2 = NaN`. -/
def freshTimeState : TimeState := ⟨0, none, none⟩

/-- One iteration of the SUBTRACT_TIME_UNWRAP loop body
(plot.c:1009-1027) on the source value `X_1`: on a backward step
(`X_1 < prev`, false under NaN) the unwrap offset grows by
`prev - X_1`, plus `prev - prev2` when additionally `prev2 < prev`;
the emitted value is `X_1 + offset`; `prev/prev2` shift only on finite
input. -/
def timeUnwrapStep (s : TimeState) (X_1 : Val) : TimeState × Val :=
  let offset :=
    match X_1, s.prev with
    | some x, some p =>
        if x < p then
          let o := s.unwrap + (p - x)
          match s.prev2 with
          | some p2 => if p2 < p then o + (p - p2) else o
          | none => o
        else s.unwrap
    | _, _ => s.unwrap
  let out := fAdd X_1 (some offset)
  if fp_isfinite X_1 then (⟨offset, X_1, s.prev⟩, out)
  else (⟨offset, s.prev, s.prev2⟩, out)

/-- The SUBTRACT_TIME_UNWRAP loop over a sequence of source values,
threading the running state; returns the final state and the emitted
column values. -/
def timeUnwrapRun (s : TimeState) : List Val → TimeState × List Val
  | [] => (s, [])
  | x :: xs =>
      let p := timeUnwrapStep s x
      let q := timeUnwrapRun p.1 xs
      (q.1, p.2 :: q.2)

/-- Store one value through a row pointer obtained from `plotDataWrite`
(`row[cN] = ...`): update cell `idx` of chunk `kN`'s buffer. -/
def writeCell (pl : Plot) (dN kN idx : ℕ) (v : Val) : Plot :=
  match (pl.data dN).raw kN with
  | some buf =>
      { pl with
        data := updF pl.data dN
          ({ pl.data dN with
             raw := updF (pl.data dN).raw kN (some (updF buf idx v)) }) }
  | none => pl

/-- The row loop of the SUBTRACT_TIME_UNWRAP arm of `plotDataSubtract`
(plot.c:1003-1031): fetch the row via `plotDataWrite`, stop on a NULL
row, read the source value (`(cN_1 < 0) ? id_N : row[cN_1]`), apply
`timeUnwrapStep` and store the emitted value into column `cN`.  `fuel`
bounds the iterations; the caller passes one more than the ring
distance from the start row to the tail, at which the loop provably
stops (plotDataWrite returns NULL at the tail), so the bound is never
the reason the loop ends. -/
def timeUnwrapLoop (fuel : ℕ) (pl : Plot) (dN cN : ℕ) (cN_1 : ℤ)
    (rN id_N : ℕ) (s : TimeState) : Plot × TimeState :=
  match fuel with
  | 0 => (pl, s)
  | fuel + 1 =>
      let w := plotDataWrite pl dN rN
      match w.2.1 with
      | none => (w.1, s)
      | some kb =>
          let X_1 : Val :=
            if cN_1 < 0 then some (id_N : ℚ)
            else match ((w.1.data dN).raw kb.1) with
                 | some buf => buf (kb.2 + cN_1.toNat)
                 | none => none
          let p := timeUnwrapStep s X_1
          let pl2 := writeCell w.1 dN kb.1 (kb.2 + cN) p.2
          timeUnwrapLoop fuel pl2 dN cN cN_1 w.2.2 (id_N + 1) p.1

/-- The SUBTRACT_TIME_UNWRAP arm of `plotDataSubtract` called on a
single slot `0 ≤ sN < PLOT_SUBTRACT` (plot.c:945-1036): the row span is
`[head_N, tail_N)` (`rS = head_N`), so the running state is freshly
reset (plot.c:991-996), the loop body is applied to every valid row and
the final running state is stored back into the slot
(plot.c:1033-1035).  No-op when the slot is not TIME_UNWRAP or an index
is out of range. -/
def plotDataSubtractTimeUnwrap (pl : Plot) (dN sN : ℕ) : Plot :=
  if dN ≥ pl.datasetMax then pl
  else if sN ≥ pl.subtractK then pl
  else
    match (pl.data dN).sub sN with
    | .TIME_UNWRAP cN_1 _ _ _ =>
        let d := pl.data dN
        let cN := sN + d.column_N
        let rS := d.head_N
        let dist := (d.tail_N + d.length_N - rS) % d.length_N
        let r := timeUnwrapLoop (dist + 1) pl dN cN cN_1 rS d.id_N freshTimeState
        { r.1 with
          data := updF r.1.data dN
            ({ r.1.data dN with
               sub := updF (r.1.data dN).sub sN
                 (.TIME_UNWRAP cN_1 r.2.unwrap r.2.prev r.2.prev2) }) }
    | _ => pl

/-- Scenario B of the specification (time unwrap): a dataset with
`column_N = 1`, the six source values
`0.0, 0.5, 1.0, 0.2, 0.7, 1.2` inserted, one TIME_UNWRAP slot reading
column 0, and the derived column computed from head with fresh state. -/
def scenarioTimeUnwrap : Plot :=
  let pl0 := mkPlot 2 10 40 10 8 1 8 3
  let pl1 :=
    { pl0 with
      data := updF pl0.data 0
        ({ pl0.data 0 with
           sub := updF (pl0.data 0).sub 0 (.TIME_UNWRAP 0 0 none none) }) }
  let pl2 :=
    plotDataInsert (plotDataInsert (plotDataInsert (plotDataInsert (plotDataInsert
      (plotDataInsert pl1 0 [some 0]) 0 [some (1/2)]) 0 [some 1]) 0 [some (1/5)])
      0 [some (7/10)]) 0 [some (6/5)]
  plotDataSubtractTimeUnwrap pl2 0 0

/-- The slot-input half of plotCheckColumnLinked (plot.c:2814-2855). -/
def slotUsesColumn (slot : SubSlot) (cN : ℤ) : Bool :=
  match slot with
  | .SCALE c1 _ _ => decide (cN = c1)
  | .BINARY_SUBTRACTION c1 c2 => decide (cN = c1) || decide (cN = c2)
  | .BINARY_ADDITION c1 c2 => decide (cN = c1) || decide (cN = c2)
  | .BINARY_MULTIPLICATION c1 c2 => decide (cN = c1) || decide (cN = c2)
  | .BINARY_HYPOTENUSE c1 c2 => decide (cN = c1) || decide (cN = c2)
  | .FILTER_DIFFERENCE c1 _ => decide (cN = c1)
  | .FILTER_CUMULATIVE c1 _ => decide (cN = c1)
  | .FILTER_BITMASK c1 _ _ => decide (cN = c1)
  | .FILTER_LOW_PASS c1 _ _ => decide (cN = c1)
  | .RESAMPLE cX _ _ _ => decide (cN = cX)
  | _ => false

/-- The figure half of plotCheckColumnLinked (plot.c:2857-2867). -/
def columnReadByFigure (pl : Plot) (cN : ℤ) : Bool :=
  (List.range pl.figuresMax).any (fun fN =>
    (pl.figure fN).busy &&
      (decide (cN = (pl.figure fN).column_X) || decide (cN = (pl.figure fN).column_Y)))

/-- plotCheckColumnLinked (plot.c:2809-2870): column `cN` of dataset
`dN` is linked when some live slot declares it as an input — the
if-chain checks SCALE, the four BINARY kinds, the four FILTER kinds and
RESAMPLE, but consults neither TIME_UNWRAP's `op.time.column_1` nor
POLYFIT's `op.polyfit.column_X` — or when some live figure reads it as
`column_X` or `column_Y`. -/
def plotCheckColumnLinked (pl : Plot) (dN : ℕ) (cN : ℤ) : Bool :=
  (List.range pl.subtractK).any
    (fun sN => slotUsesColumn ((pl.data dN).sub sN) cN) ||
  columnReadByFigure pl cN

/-- Free derived slot `sN` of dataset `dN`. -/
def freeSlot (pl : Plot) (dN sN : ℕ) : Plot :=
  { pl with
    data := updF pl.data dN
      ({ pl.data dN with sub := updF (pl.data dN).sub sN .FREE }) }

/-- One pass of plotSubtractGarbage's do-while body (plot.c:2877-2894):
walk the slots in index order, freeing every live slot whose owned
column `column_N + sN` is unlinked, and count the slots freed. -/
def sweepPassGo (dN : ℕ) : List ℕ → Plot → ℕ → Plot × ℕ
  | [], pl, n => (pl, n)
  | sN :: rest, pl, n =>
      if ((pl.data dN).sub sN).isFree then sweepPassGo dN rest pl n
      else if plotCheckColumnLinked pl dN ((sN : ℤ) + ((pl.data dN).column_N : ℤ))
      then sweepPassGo dN rest pl n
      else sweepPassGo dN rest (freeSlot pl dN sN) (n + 1)

/-- One full pass over all `PLOT_SUBTRACT` slots. -/
def sweepPass (pl : Plot) (dN : ℕ) : Plot × ℕ :=
  sweepPassGo dN (List.range pl.subtractK) pl 0

/-- The number of live derived slots of dataset `dN`. -/
def busyCount (pl : Plot) (dN : ℕ) : ℕ :=
  ((Finset.range pl.subtractK).filter
    (fun sN => ((pl.data dN).sub sN).isFree = false)).card

/-- plotSubtractGarbage's do-while loop (plot.c:2877-2895), with an
explicit pass bound.  Each pass that frees at least one slot strictly
decreases the number of live slots (of which there are at most
`PLOT_SUBTRACT`), so with `PLOT_SUBTRACT + 1` passes the loop provably
reaches the same fixpoint as the unbounded C loop. -/
def plotSubtractGarbageLoop : ℕ → Plot → ℕ → Plot
  | 0, pl, _ => pl
  | fuel + 1, pl, dN =>
      let r := sweepPass pl dN
      if r.2 = 0 then r.1 else plotSubtractGarbageLoop fuel r.1 dN

/-- plotSubtractGarbage (plot.c:2872-2896): fixpoint sweep freeing
unlinked derived slots. -/
def plotSubtractGarbage (pl : Plot) (dN : ℕ) : Plot :=
  plotSubtractGarbageLoop (pl.subtractK + 1) pl dN

/-- The dataset 0 state for the C7 counterexample: `column_N = 1`, two
slots — slot 0 a SCALE of column 0 (owning column 1), slot 1 a
TIME_UNWRAP whose source is slot 0's column 1 (owning column 2) — and
one live figure plotting `(column 0, column 2)`, i.e. reading only the
TIME_UNWRAP output. -/
def garbagePlot : Plot :=
  let pl := mkPlot 2 1 1 4 1 1 4 2
  { pl with
    data := updF pl.data 0
      ({ pl.data 0 with
         sub := fun sN =>
           if sN = 0 then .SCALE 0 1 0
           else if sN = 1 then .TIME_UNWRAP 1 0 none none
           else .FREE }),
    figure := updF pl.figure 0
      ({ mkFigure with busy := true, data_N := 0, column_X := 0, column_Y := 2 }) }

/-- plotDataSkip (plot.c:688-718): advance the ring cursor by `sk_N`
rows clamped to `[head, tail]`, updating the logical id alongside. -/
def plotDataSkip (pl : Plot) (dN : ℕ) (rN id_N : ℕ) (sk_N : ℤ) : ℕ × ℕ :=
  let d := pl.data dN
  let lN : ℤ := (d.length_N : ℤ)
  let n0 : ℤ := (rN : ℤ) - (d.head_N : ℤ)
  let n1 : ℤ := if n0 < 0 then n0 + lN else n0
  let t0 : ℤ := (d.tail_N : ℤ) - (d.head_N : ℤ)
  let t1 : ℤ := if t0 < 0 then t0 + lN else t0
  let sk1 : ℤ := if n1 + sk_N < 0 then -n1 else sk_N
  let sk2 : ℤ := if n1 + sk1 > t1 then t1 - n1 else sk1
  let n2 : ℤ := (d.head_N : ℤ) + (n1 + sk2)
  let n3 : ℤ := if n2 > lN - 1 then n2 - lN else n2
  (n3.toNat, ((id_N : ℤ) + sk2).toNat)

/-- plotDataChunkSkip (plot.c:730-742): advance the cursor to the next
chunk boundary (or the ring end), clamped to the tail by
`plotDataSkip`. -/
def plotDataChunkSkip (pl : Plot) (dN : ℕ) (rN id_N : ℕ) : ℕ × ℕ :=
  let d := pl.data dN
  let skip0 : ℤ := ((1 <<< d.chunk_SHIFT : ℕ) : ℤ) -
    ((rN % (1 <<< d.chunk_SHIFT) : ℕ) : ℤ)
  let wrap : ℤ := (d.length_N : ℤ) - (rN : ℤ)
  plotDataSkip pl dN rN id_N (if wrap < skip0 then wrap else skip0)

/-- plotDataRangeCacheGetNode (plot.c:1429-1446): index of the busy
entry keyed `(dN, cN)`, or `-1`. -/
def plotDataRangeCacheGetNode (pl : Plot) (dN : ℕ) (cN : ℤ) : ℤ :=
  match (List.range pl.rcacheSize).find? (fun N =>
      (pl.rcache N).busy && decide ((pl.rcache N).data_N = dN) &&
      decide ((pl.rcache N).column_N = cN)) with
  | some N => (N : ℤ)
  | none => -1

/-- The inner row scan of `plotDataRangeCacheFetch` (plot.c:1537-1565):
walk rows with `plotDataGet` while they stay inside chunk `kN`, folding
the finite values of column `cN` into `(finite, ymin, ymax)`.  `fuel`
only bounds the iterations; the scan stops at a chunk boundary, at the
tail or at a missing chunk buffer exactly as the C loop does. -/
def scanChunkRows (fuel : ℕ) (pl : Plot) (dN : ℕ) (cN : ℤ) (kN : ℕ)
    (rN id_N : ℕ) (finite : Bool) (ymin ymax : ℚ) : ℕ × ℕ × Bool × ℚ × ℚ :=
  match fuel with
  | 0 => (rN, id_N, finite, ymin, ymax)
  | fuel + 1 =>
      if kN ≠ rN >>> (pl.data dN).chunk_SHIFT then (rN, id_N, finite, ymin, ymax)
      else
        match (plotDataGet pl dN rN).1 with
        | none => (rN, id_N, finite, ymin, ymax)
        | some row =>
            let fval := readCol row id_N cN
            let t :=
              match fval with
              | some q =>
                  if finite then
                    (true, if q < ymin then q else ymin, if q > ymax then q else ymax)
                  else (true, q, q)
              | none => (finite, ymin, ymax)
            scanChunkRows fuel pl dN cN kN (plotDataGet pl dN rN).2 (id_N + 1)
              t.1 t.2.1 t.2.2

/-- The outer chunk walk of `plotDataRangeCacheFetch`
(plot.c:1505-1601), acting on entry `xN`: per chunk, either rescan its
live rows (always for the chunk containing the tail, where a computed
entry seeds `(finite, ymin, ymax)`; otherwise only when not yet
computed) and store the per-chunk result, or skip the chunk; in both
cases fold the chunk entry into the aggregate `(started, fmin, fmax)`.
`fuel` bounds the outer iterations; the walk stops at the tail as the C
loop does (a missing chunk buffer, over which the C loop would never
terminate, instead exhausts the fuel). -/
def fetchLoop (fuel : ℕ) (dN : ℕ) (cN : ℤ) (xN : ℕ) (pl : Plot)
    (rN id_N : ℕ) (started : Bool) (fmin fmax : ℚ) : Plot × Bool × ℚ × ℚ :=
  match fuel with
  | 0 => (pl, started, fmin, fmax)
  | fuel + 1 =>
      let d := pl.data dN
      let kN := rN >>> d.chunk_SHIFT
      let e := pl.rcache xN
      let tailChunk := d.tail_N >>> d.chunk_SHIFT
      let seed : Bool × Bool × ℚ × ℚ :=
        if (e.chunk kN).computed then
          if kN = tailChunk then
            (true, (e.chunk kN).finite, (e.chunk kN).fmin, (e.chunk kN).fmax)
          else (false, false, 0, 0)
        else (true, false, 0, 0)
      if seed.1 then
        let sc := scanChunkRows (d.length_N + 1) pl dN cN kN rN id_N
          seed.2.1 seed.2.2.1 seed.2.2.2
        let c0 := e.chunk kN
        let c1 : RChunk :=
          ⟨true, sc.2.2.1,
           if sc.2.2.1 then sc.2.2.2.1 else c0.fmin,
           if sc.2.2.1 then sc.2.2.2.2 else c0.fmax⟩
        let pl2 := { pl with rcache := updF pl.rcache xN { e with chunk := updF e.chunk kN c1 } }
        let agg : Bool × ℚ × ℚ :=
          if c1.finite then
            if started then
              (true, if c1.fmin < fmin then c1.fmin else fmin,
               if c1.fmax > fmax then c1.fmax else fmax)
            else (true, c1.fmin, c1.fmax)
          else (started, fmin, fmax)
        if sc.1 = d.tail_N then (pl2, agg)
        else fetchLoop fuel dN cN xN pl2 sc.1 sc.2.1 agg.1 agg.2.1 agg.2.2
      else
        let sk := plotDataChunkSkip pl dN rN id_N
        let agg : Bool × ℚ × ℚ :=
          if (e.chunk kN).finite then
            if started then
              (true, if (e.chunk kN).fmin < fmin then (e.chunk kN).fmin else fmin,
               if (e.chunk kN).fmax > fmax then (e.chunk kN).fmax else fmax)
            else (true, (e.chunk kN).fmin, (e.chunk kN).fmax)
          else (started, fmin, fmax)
        if sk.1 = d.tail_N then (pl, agg)
        else fetchLoop fuel dN cN xN pl sk.1 sk.2 agg.1 agg.2.1 agg.2.2

/-- plotDataRangeCacheFetch (plot.c:1479-1614): return (the state
after) an entry for `(dN, cN)` whose chunks are all computed and whose
aggregate is cached.  A busy, cached entry is returned untouched;
otherwise a (possibly new, rotationally allocated) entry is recomputed
by the chunk walk, marked busy and cached, and the write-streak memo is
reset to `(-1, -1)`. -/
def plotDataRangeCacheFetch (pl : Plot) (dN : ℕ) (cN : ℤ) : Plot × ℕ :=
  let nodeN := plotDataRangeCacheGetNode pl dN cN
  if nodeN ≥ 0 ∧ (pl.rcache nodeN.toNat).cached then (pl, nodeN.toNat)
  else
    let alloc : Plot × ℕ :=
      if nodeN ≥ 0 then (pl, nodeN.toNat)
      else
        let xN := pl.rcache_ID
        ({ pl with
           rcache_ID := if pl.rcache_ID < pl.rcacheSize - 1 then pl.rcache_ID + 1 else 0,
           rcache := updF pl.rcache xN
             ({ pl.rcache xN with
                chunk := fun N => { (pl.rcache xN).chunk N with computed := false } }) },
         xN)
    let pl1 := alloc.1
    let xN := alloc.2
    let d := pl1.data dN
    let r := fetchLoop (d.length_N + 2) dN cN xN pl1 d.head_N d.id_N false 0 0
    let pl2 := r.1
    let e := pl2.rcache xN
    ({ pl2 with
       rcache := updF pl2.rcache xN
         ({ e with
            busy := true
            data_N := dN
            column_N := cN
            cached := true
            fmin := r.2.2.1
            fmax := r.2.2.2 }),
       rcache_wipe_data_N := -1,
       rcache_wipe_chunk_N := -1 },
     xN)

/-- The C2 failing scenario: `column_N = 1`, `length = 4`, two-row
chunks; insert `[0, 0, -100, 0]`, fetch column 0, insert `[0, 0]`
(evicting the `-100` row without ever writing its chunk again). -/
def rcacheBugPlot : Plot :=
  let p0 := mkPlot 1 4 2 1 1 1 4 1
  let p4 := plotDataInsert (plotDataInsert (plotDataInsert (plotDataInsert
    p0 0 [some 0]) 0 [some 0]) 0 [some (-100)]) 0 [some 0]
  let p5 := (plotDataRangeCacheFetch p4 0 0).1
  plotDataInsert (plotDataInsert p5 0 [some 0]) 0 [some 0]

/-- "Chunk `k` of dataset `d` is wiped": every busy range-cache entry
for `d` has `computed = 0` on chunk `k` and its aggregate `cached` bit
cleared. -/
def wipedFor (pl : Plot) (d k : ℕ) : Prop :=
  ∀ N, N < pl.rcacheSize → (pl.rcache N).busy = true → (pl.rcache N).data_N = d →
    ((pl.rcache N).chunk k).computed = false ∧ (pl.rcache N).cached = false

/-- The meaning of the `(rcache_wipe_data_N, rcache_wipe_chunk_N)`
memo: whenever it names a dataset/chunk pair, that pair is wiped. -/
def WipeMemoInv (pl : Plot) : Prop :=
  ∀ d k : ℕ, pl.rcache_wipe_data_N = (d : ℤ) → pl.rcache_wipe_chunk_N = (k : ℤ) →
    wipedFor pl d k

/-- `x*s + o` on doubles with NaN propagation (the pixel transform of a
row value inside the draw loops). -/
def fAffine (x : Val) (s o : ℚ) : Val :=
  match x with
  | some q => some (q * s + o)
  | none => none

/-- Modelled from the spec: `drawLineTrial` of the external rasterizer
(draw.c is not under src/); §6 specifies `trialLine(last, current,
color, width) → bool` — "return whether the primitive intersects the
current viewport".  Exact segment/rectangle intersection over ℚ: the
segment's bounding box must meet the rectangle and the rectangle's
corners must not lie strictly on one side of the segment's line; a
non-finite coordinate makes every comparison false, so the primitive is
reported invisible.  The color and width arguments do not affect the
predicate. -/
def drawLineTrial (vp : Viewport) (p1 q1 p2 q2 : Val) (ncolor fwidth : ℕ) : Bool :=
  match p1, q1, p2, q2 with
  | some x1, some y1, some x2, some y2 =>
      let lo_x : ℚ := (vp.min_x : ℚ)
      let hi_x : ℚ := (vp.max_x : ℚ)
      let lo_y : ℚ := (vp.min_y : ℚ)
      let hi_y : ℚ := (vp.max_y : ℚ)
      let bb : Bool :=
        decide (min x1 x2 ≤ hi_x) && decide (lo_x ≤ max x1 x2) &&
        decide (min y1 y2 ≤ hi_y) && decide (lo_y ≤ max y1 y2)
      let side : ℚ → ℚ → ℚ :=
        fun px py => (x2 - x1) * (py - y1) - (y2 - y1) * (px - x1)
      let s1 := side lo_x lo_y
      let s2 := side hi_x lo_y
      let s3 := side lo_x hi_y
      let s4 := side hi_x hi_y
      let allpos : Bool :=
        decide (0 < s1) && decide (0 < s2) && decide (0 < s3) && decide (0 < s4)
      let allneg : Bool :=
        decide (s1 < 0) && decide (s2 < 0) && decide (s3 < 0) && decide (s4 < 0)
      (decide (ncolor = ncolor) && decide (fwidth = fwidth)) && bb && !allpos && !allneg
  | _, _, _, _ => false

/-- Modelled from the spec: `drawDotTrial` of the external rasterizer
(draw.c is not under src/); §6 specifies `trialDot(point, width, color)
→ bool` — whether the point lies in the current viewport. -/
def drawDotTrial (vp : Viewport) (p q : Val) (fwidth ncolor : ℕ) : Bool :=
  match p, q with
  | some x, some y =>
      (decide (fwidth = fwidth) && decide (ncolor = ncolor)) &&
      decide ((vp.min_x : ℚ) ≤ x) && decide (x ≤ (vp.max_x : ℚ)) &&
      decide ((vp.min_y : ℚ) ≤ y) && decide (y ≤ (vp.max_y : ℚ))
  | _, _ => false

/-- plotSketchDataChunkSetUp (plot.c:4482-4546): ensure the figure has
a usable current sketch chunk — keep the present one when it matches
the figure and has room, otherwise take the head of the garbage list,
stamp and reset it, link it behind the figure's current chunk (or onto
the engine's current list) and make it the figure's `list_self`; with
an empty garbage list the figure's `list_self` becomes `-1` (the C code
only logs).  A chunk buffer that was never allocated is materialized
here (`malloc` is modelled as succeeding). -/
def plotSketchDataChunkSetUp (pl : Plot) (fN : ℕ) : Plot :=
  let hN := (pl.draw fN).list_self
  if hN ≥ 0 ∧ (pl.sketch hN.toNat).figure_N = fN
      ∧ (pl.sketch hN.toNat).drawing = (pl.figure fN).drawing
      ∧ (pl.sketch hN.toNat).width = (pl.figure fN).width
      ∧ (pl.sketch hN.toNat).length < pl.sketchChunkSize then
    pl
  else if pl.sketch_list_garbage ≥ 0 then
    let h2 := pl.sketch_list_garbage.toNat
    let garbage2 := (pl.sketch h2).linked
    let buf : ℕ → Val :=
      match (pl.sketch h2).chunk with
      | some b => b
      | none => fun _ => none
    let sk2 : Sketch :=
      { figure_N := fN
        drawing := (pl.figure fN).drawing
        width := (pl.figure fN).width
        chunk := some buf
        length := 0
        linked := if (pl.draw fN).list_self ≥ 0
                  then (pl.sketch (pl.draw fN).list_self.toNat).linked
                  else -1 }
    if (pl.draw fN).list_self ≥ 0 then
      let self := (pl.draw fN).list_self.toNat
      { pl with
        sketch_list_garbage := garbage2,
        sketch := updF (updF pl.sketch h2 sk2) self
          ({ (updF pl.sketch h2 sk2) self with linked := (h2 : ℤ) }),
        sketch_list_current_end :=
          if (pl.draw fN).list_self = pl.sketch_list_current_end
          then (h2 : ℤ) else pl.sketch_list_current_end,
        draw := updF pl.draw fN ({ pl.draw fN with list_self := (h2 : ℤ) }) }
    else if pl.sketch_list_current ≥ 0 then
      { pl with
        sketch_list_garbage := garbage2,
        sketch := updF (updF pl.sketch h2 sk2) pl.sketch_list_current_end.toNat
          ({ (updF pl.sketch h2 sk2) pl.sketch_list_current_end.toNat with
             linked := (h2 : ℤ) }),
        sketch_list_current_end := (h2 : ℤ),
        draw := updF pl.draw fN ({ pl.draw fN with list_self := (h2 : ℤ) }) }
    else
      { pl with
        sketch_list_garbage := garbage2,
        sketch := updF pl.sketch h2 sk2,
        sketch_list_current := (h2 : ℤ),
        sketch_list_current_end := (h2 : ℤ),
        draw := updF pl.draw fN ({ pl.draw fN with list_self := (h2 : ℤ) }) }
  else
    { pl with draw := updF pl.draw fN ({ pl.draw fN with list_self := -1 }) }

/-- plotSketchDataAdd (plot.c:4548-4569): append one `(X, Y)` pair to
the figure's current sketch chunk and roll over to a fresh chunk when
it fills. -/
def plotSketchDataAdd (pl : Plot) (fN : ℕ) (X Y : Val) : Plot :=
  let hN := (pl.draw fN).list_self
  if hN ≥ 0 then
    let h := hN.toNat
    let sk := pl.sketch h
    match sk.chunk with
    | some buf =>
        let pl2 :=
          { pl with
            sketch := updF pl.sketch h
              ({ sk with
                 chunk := some (updF (updF buf sk.length X) (sk.length + 1) Y)
                 length := sk.length + 2 }) }
        if sk.length + 2 ≥ pl.sketchChunkSize
        then plotSketchDataChunkSetUp pl2 fN else pl2
    | none => pl
  else pl

/-- The list-recycling walk shared by plotSketchGarbage and
plotSketchClean (plot.c:4576-4586): push every node of the list headed
`hN` onto the garbage list.  `fuel` bounds the walk (the pool has
`PLOT_SKETCH_MAX` nodes). -/
def sketchRecycle (fuel : ℕ) (pl : Plot) (hN : ℤ) : Plot :=
  match fuel with
  | 0 => pl
  | fuel + 1 =>
      if hN ≥ 0 then
        let h := hN.toNat
        let nxt := (pl.sketch h).linked
        sketchRecycle fuel
          { pl with
            sketch := updF pl.sketch h ({ pl.sketch h with linked := pl.sketch_list_garbage })
            sketch_list_garbage := hN }
          nxt
      else pl

/-- plotSketchGarbage (plot.c:4571-4594): recycle the `todraw` list
into the free pool, promote `current` to `todraw`, clear the current
list and every figure's `list_self`. -/
def plotSketchGarbage (pl : Plot) : Plot :=
  let pl2 := sketchRecycle (pl.sketchMax + 1) pl pl.sketch_list_todraw
  { pl2 with
    sketch_list_todraw := pl2.sketch_list_current
    sketch_list_current := -1
    sketch_list_current_end := -1
    draw := fun N => { pl2.draw N with list_self := -1 } }

/-- The chunk-level culling test at the head of both draw loops
(plot.c:4731-4761 and 4848-4878): with computed range-cache chunks for
the figure's X and Y columns, the chunk can be skipped (`job = 0`) when
it maps entirely outside the viewport (16-pixel margin) or is wholly
non-finite. -/
def chunkCullJob (pl : Plot) (xNR yNR kN : ℕ) (sX oX sY oY : ℚ) : Bool :=
  let j1 :=
    if ((pl.rcache xNR).chunk kN).computed then
      if ((pl.rcache xNR).chunk kN).finite then
        if ((pl.rcache xNR).chunk kN).fmax * sX + oX < (pl.viewport.min_x : ℚ) - 16 ∨
            ((pl.rcache xNR).chunk kN).fmin * sX + oX > (pl.viewport.max_x : ℚ) + 16
        then false else true
      else false
    else true
  if ((pl.rcache yNR).chunk kN).computed then
    if ((pl.rcache yNR).chunk kN).finite then
      if ((pl.rcache yNR).chunk kN).fmin * sY + oY < (pl.viewport.min_y : ℚ) - 16 ∨
          ((pl.rcache yNR).chunk kN).fmax * sY + oY > (pl.viewport.max_y : ℚ) + 16
      then false else j1
    else false
  else j1

/-- The loop state of the LINE/DASH body of `plotDrawFigureTrial`. -/
structure TrialSt where
  pl : Plot
  rN : ℕ
  id_N : ℕ
  kN_cached : ℤ
  skipped : Bool
  line : Bool
  last_X : Val
  last_Y : Val
  last_im_X : Val
  last_im_Y : Val

/-- The LINE/DASH row loop of `plotDrawFigureTrial` (plot.c:4727-4840):
cull whole chunks via the range cache, emit a trial for each segment of
consecutive finite points and append the visible ones (in data
coordinates) to the figure's sketch, finish at the tail, and interrupt
— saving the whole cursor into `draw[fN]` — once a chunk's worth of
logical ids has been consumed. -/
def lineTrialLoop (fuel : ℕ) (dN : ℕ) (xN yN : ℤ) (xNR yNR : ℕ)
    (sX oX sY oY : ℚ) (ncolor fwidth fN top_N : ℕ) (st : TrialSt) : Plot :=
  match fuel with
  | 0 => st.pl
  | fuel + 1 =>
      let kN := st.rN >>> ((st.pl.data dN).chunk_SHIFT)
      let job := if (kN : ℤ) ≠ st.kN_cached
                 then chunkCullJob st.pl xNR yNR kN sX oX sY oY else true
      let kc2 : ℤ := (kN : ℤ)
      if job = true ∨ st.line = true then
        let back := if st.skipped then plotDataSkip st.pl dN st.rN st.id_N (-1)
                    else (st.rN, st.id_N)
        let g := plotDataGet st.pl dN back.1
        match g.1 with
        | none =>
            { st.pl with
              draw := updF st.pl.draw fN ({ st.pl.draw fN with sketch := .FINISHED }) }
        | some row =>
            let X := readCol row back.2 xN
            let Y := readCol row back.2 yN
            let im_X := fAffine X sX oX
            let im_Y := fAffine Y sY oY
            let st2 : TrialSt :=
              if fp_isfinite im_X = true ∧ fp_isfinite im_Y = true then
                let pl2 :=
                  if st.line = true then
                    if drawLineTrial st.pl.viewport st.last_im_X st.last_im_Y
                        im_X im_Y ncolor fwidth = true then
                      plotSketchDataAdd
                        (plotSketchDataAdd st.pl fN st.last_X st.last_Y) fN X Y
                    else st.pl
                  else st.pl
                { st with
                  pl := pl2
                  rN := g.2
                  id_N := back.2 + 1
                  kN_cached := kc2
                  skipped := false
                  line := true
                  last_X := X
                  last_Y := Y
                  last_im_X := im_X
                  last_im_Y := im_Y }
              else
                { st with
                  pl := st.pl
                  rN := g.2
                  id_N := back.2 + 1
                  kN_cached := kc2
                  skipped := false
                  line := false }
            let st3 : TrialSt :=
              if job = false then
                let sk := plotDataChunkSkip st2.pl dN st2.rN st2.id_N
                { st2 with
                  rN := sk.1
                  id_N := sk.2
                  skipped := true
                  line := false }
              else st2
            if top_N < st3.id_N then
              { st3.pl with
                draw := updF st3.pl.draw fN
                  ({ st3.pl.draw fN with
                     sketch := .INTERRUPTED
                     rN := st3.rN
                     id_N := st3.id_N
                     skipped := st3.skipped
                     line := st3.line
                     last_X := st3.last_X
                     last_Y := st3.last_Y }) }
            else lineTrialLoop fuel dN xN yN xNR yNR sX oX sY oY ncolor fwidth
              fN top_N st3
      else
        let sk := plotDataChunkSkip st.pl dN st.rN st.id_N
        let st3 : TrialSt :=
          { st with
            rN := sk.1
            id_N := sk.2
            kN_cached := kc2
            skipped := true
            line := false }
        if top_N < st3.id_N then
          { st3.pl with
            draw := updF st3.pl.draw fN
              ({ st3.pl.draw fN with
                 sketch := .INTERRUPTED
                 rN := st3.rN
                 id_N := st3.id_N
                 skipped := st3.skipped
                 line := st3.line
                 last_X := st3.last_X
                 last_Y := st3.last_Y }) }
        else lineTrialLoop fuel dN xN yN xNR yNR sX oX sY oY ncolor fwidth
          fN top_N st3

/-- The DOT row loop of `plotDrawFigureTrial` (plot.c:4844-4927): like
the LINE loop but per-point, without the segment state; an interrupt
saves only the cursor `(rN, id_N)`. -/
def dotTrialLoop (fuel : ℕ) (dN : ℕ) (xN yN : ℤ) (xNR yNR : ℕ)
    (sX oX sY oY : ℚ) (ncolor fwidth fN top_N : ℕ) (pl : Plot)
    (rN id_N : ℕ) (kN_cached : ℤ) : Plot :=
  match fuel with
  | 0 => pl
  | fuel + 1 =>
      let kN := rN >>> ((pl.data dN).chunk_SHIFT)
      let job := if (kN : ℤ) ≠ kN_cached
                 then chunkCullJob pl xNR yNR kN sX oX sY oY else true
      let kc2 : ℤ := (kN : ℤ)
      if job = true then
        let g := plotDataGet pl dN rN
        match g.1 with
        | none =>
            { pl with draw := updF pl.draw fN ({ pl.draw fN with sketch := .FINISHED }) }
        | some row =>
            let X := readCol row id_N xN
            let Y := readCol row id_N yN
            let im_X := fAffine X sX oX
            let im_Y := fAffine Y sY oY
            let pl2 :=
              if fp_isfinite im_X = true ∧ fp_isfinite im_Y = true then
                if drawDotTrial pl.viewport im_X im_Y fwidth ncolor = true then
                  plotSketchDataAdd pl fN X Y
                else pl
              else pl
            if top_N < id_N + 1 then
              { pl2 with
                draw := updF pl2.draw fN
                  ({ pl2.draw fN with
                     sketch := .INTERRUPTED
                     rN := g.2
                     id_N := id_N + 1 }) }
            else dotTrialLoop fuel dN xN yN xNR yNR sX oX sY oY ncolor fwidth
              fN top_N pl2 g.2 (id_N + 1) kc2
      else
        let sk := plotDataChunkSkip pl dN rN id_N
        if top_N < sk.2 then
          { pl with
            draw := updF pl.draw fN
              ({ pl.draw fN with
                 sketch := .INTERRUPTED
                 rN := sk.1
                 id_N := sk.2 }) }
        else dotTrialLoop fuel dN xN yN xNR yNR sX oX sY oY ncolor fwidth
          fN top_N pl sk.1 sk.2 kc2

/-- plotDrawFigureTrial (plot.c:4656-4929): produce one chunk's worth
of sketch output for figure `fN` — fetch the range-cache entries for
both columns, compose the slave and viewport transforms of the
figure's axes, ensure a sketch chunk, and run the drawing-kind's row
loop from the saved cursor.  The loop fuel is a bound on the loop trips
(a trip consumes a row, skips into a later chunk, or terminates), never
the reason the loop ends in a well-formed state. -/
def plotDrawFigureTrial (pl : Plot) (fN : ℕ) : Plot :=
  let ncolor := if (pl.figure fN).hidden then 9 else fN + 1
  let fdrawing := (pl.figure fN).drawing
  let fwidth := (pl.figure fN).width
  let dN := (pl.figure fN).data_N
  let xN := (pl.figure fN).column_X
  let yN := (pl.figure fN).column_Y
  let f1 := plotDataRangeCacheFetch pl dN xN
  let f2 := plotDataRangeCacheFetch f1.1 dN yN
  let pl1 := f2.1
  let xNR := f1.2
  let yNR := f2.2
  let aX := (pl1.figure fN).axis_X
  let sX0 := (pl1.axis aX).scale
  let oX0 := (pl1.axis aX).offset
  let sX1 := if (pl1.axis aX).slave = true
             then sX0 * (pl1.axis (pl1.axis aX).slave_N).scale else sX0
  let oX1 := if (pl1.axis aX).slave = true
             then oX0 * (pl1.axis (pl1.axis aX).slave_N).scale +
               (pl1.axis (pl1.axis aX).slave_N).offset
             else oX0
  let aY := (pl1.figure fN).axis_Y
  let sY0 := (pl1.axis aY).scale
  let oY0 := (pl1.axis aY).offset
  let sY1 := if (pl1.axis aY).slave = true
             then sY0 * (pl1.axis (pl1.axis aY).slave_N).scale else sY0
  let oY1 := if (pl1.axis aY).slave = true
             then oY0 * (pl1.axis (pl1.axis aY).slave_N).scale +
               (pl1.axis (pl1.axis aY).slave_N).offset
             else oY0
  let tX : ℚ := ((pl1.viewport.max_x - pl1.viewport.min_x : ℤ) : ℚ)
  let tY : ℚ := ((pl1.viewport.min_y - pl1.viewport.max_y : ℤ) : ℚ)
  let sX := sX1 * tX
  let oX := oX1 * tX + (pl1.viewport.min_x : ℚ)
  let sY := sY1 * tY
  let oY := oY1 * tY + (pl1.viewport.max_y : ℚ)
  let rN := (pl1.draw fN).rN
  let id0 := (pl1.draw fN).id_N
  let top_N := id0 + (1 <<< (pl1.data dN).chunk_SHIFT)
  let fuel := (pl1.data dN).length_N + 2 * (1 <<< (pl1.data dN).chunk_SHIFT) + 8
  let pl2 := plotSketchDataChunkSetUp pl1 fN
  if fdrawing = .LINE ∨ fdrawing = .DASH then
    lineTrialLoop fuel dN xN yN xNR yNR sX oX sY oY ncolor fwidth fN top_N
      { pl := pl2
        rN := rN
        id_N := id0
        kN_cached := -1
        skipped := (pl2.draw fN).skipped
        line := (pl2.draw fN).line
        last_X := (pl2.draw fN).last_X
        last_Y := (pl2.draw fN).last_Y
        last_im_X := fAffine (pl2.draw fN).last_X sX oX
        last_im_Y := fAffine (pl2.draw fN).last_Y sY oY }
  else
    dotTrialLoop fuel dN xN yN xNR yNR sX oX sY oY ncolor fwidth fN top_N
      pl2 rN id0 (-1)

/-- The paint-order worklist of `plotDrawFigureTrialAll`
(plot.c:5811-5823): hidden busy figures first, then visible busy
figures. -/
def drawFIGS (pl : Plot) : List ℕ :=
  ((List.range pl.figuresMax).filter
    (fun fN => (pl.figure fN).busy && (pl.figure fN).hidden)) ++
  ((List.range pl.figuresMax).filter
    (fun fN => (pl.figure fN).busy && !(pl.figure fN).hidden))

/-- The scheduler's pick (plot.c:5850-5867): among unfinished figures,
the one with the smallest draw id (first in paint order on ties), `-1`
when all are finished. -/
def selectDrawFigure (pl : Plot) (figs : List ℕ) : ℤ :=
  figs.foldl
    (fun fN fQ =>
      if (pl.draw fQ).sketch ≠ .FINISHED then
        if fN < 0 then (fQ : ℤ)
        else if (pl.draw fQ).id_N < (pl.draw fN.toNat).id_N then (fQ : ℤ) else fN
      else fN)
    (-1)

/-- The do-while of `plotDrawFigureTrialAll` (plot.c:5849-5880), with
the wall-clock deadline replaced by an iteration budget: the C deadline
can cut the loop after any number `≥ 1` of iterations, so quantifying
over budgets covers every clock behavior.  Each iteration runs one
`plotDrawFigureTrial` on the lagging figure; when none is unfinished
the current sketch list is promoted (`plotSketchGarbage`) and
`draw_in_progress` drops to `0`, ending the render. -/
def trialAllLoop : ℕ → Plot → List ℕ → Plot
  | 0, pl, _ => pl
  | b + 1, pl, figs =>
      let fN := selectDrawFigure pl figs
      if fN ≥ 0 then trialAllLoop b (plotDrawFigureTrial pl fN.toNat) figs
      else { plotSketchGarbage pl with draw_in_progress := false }

/-- The frame-start initialization of `plotDrawFigureTrialAll`
(plot.c:5825-5841): reset every listed figure's draw cursor to the head
of its dataset and mark it STARTED. -/
def drawInit (pl : Plot) (figs : List ℕ) : Plot :=
  figs.foldl
    (fun pl fN =>
      { pl with
        draw := updF pl.draw fN
          ({ pl.draw fN with
             sketch := .STARTED
             rN := (pl.data (pl.figure fN).data_N).head_N
             id_N := (pl.data (pl.figure fN).data_N).id_N
             skipped := false
             line := false }) })
    pl

/-- plotDrawFigureTrialAll (plot.c:5805-5882) for one frame with the
given iteration budget: start a new render when none is in progress,
then run the scheduling loop.  (`drawClearTrial` resets only the
external rasterizer's trial surface, which the spec-modelled trial
predicates do not carry.) -/
def plotDrawFigureTrialAll (budget : ℕ) (pl : Plot) : Plot :=
  let figs := drawFIGS pl
  let pl1 := if pl.draw_in_progress = false
             then { drawInit pl figs with draw_in_progress := true }
             else pl
  trialAllLoop budget pl1 figs

/-- Repeatedly render frames (with the per-frame budgets listed) until
`draw_in_progress` returns to `0`, as the claim's driver does. -/
def runFramesUntilDone : List ℕ → Plot → Plot
  | [], pl => pl
  | b :: bs, pl =>
      let q := plotDrawFigureTrialAll b pl
      if q.draw_in_progress = true then runFramesUntilDone bs q else q

/-- The environment a frame's scheduling depends on besides the draw
cursors: the figure table and the in-progress flag agree. -/
def envEq (a b : Plot) : Prop :=
  a.figure = b.figure ∧ a.figuresMax = b.figuresMax ∧
  a.draw_in_progress = b.draw_in_progress

/-- A small idle engine state (no busy figures) on which one frame of
any positive budget completes a whole render. -/
def trialAllDemoPlot : Plot := mkPlot 1 1 1 1 1 1 4 1

/-- A state in which axis 1 is a slave of axis 0 and both are of the
same (X) orientation: axis 0 has the identity `[0,1]` relation, axis 1
the local relation `(2, 3)`. -/
def slaveMatchedPlot : Plot :=
  let pl := mkPlot 1 1 1 4 1 1 1 0
  { pl with
    axis := updF (updF pl.axis 0 ({ mkAxis with busy := .BUSY_X, scale := 1 }))
      1 ({ mkAxis with
           busy := .BUSY_X
           slave := true
           slave_N := 0
           scale := 2
           offset := 3 }) }

/-- Scenario A of the specification (ring overflow): dataset of
`column_N = 1`, `length = 4`, the five rows `1, 2, 3, 4, 5` inserted in
order.  Build constants are instantiated representatively
(`PLOT_SUBTRACT = 10`; the outcome does not depend on them, see
`plotDataInsert_evicts`). -/
def scenarioRingOverflow : Plot :=
  plotDataInsert (plotDataInsert (plotDataInsert (plotDataInsert (plotDataInsert
    (mkPlot 10 10 40 10 8 1 4 2) 0 [some 1]) 0 [some 2]) 0 [some 3]) 0 [some 4]) 0
    [some 5]

end GP

namespace GP

@[simp] theorem wipeMemo_data (pl : Plot) (dN kN : ℕ) :
    (wipeMemo pl dN kN).data = pl.data := by
  simp only [wipeMemo, plotDataRangeCacheWipe]
  split <;> rfl

@[simp] theorem wipeMemo_subtractK (pl : Plot) (dN kN : ℕ) :
    (wipeMemo pl dN kN).subtractK = pl.subtractK := by
  simp only [wipeMemo, plotDataRangeCacheWipe]
  split <;> rfl

/-- plotDataInsert, general eviction behavior (plot.c:1361-1372): when
the target chunk is allocated and the advanced tail meets the head, the
oldest row is evicted by advancing `head_N` and incrementing `id_N`. -/
theorem plotDataInsert_evicts (pl : Plot) (dN : ℕ) (row : List Val) (buf : ℕ → Val)
    (halloc : (pl.data dN).raw ((pl.data dN).tail_N >>> (pl.data dN).chunk_SHIFT) = some buf)
    (hmeet : (if (pl.data dN).tail_N < (pl.data dN).length_N - 1
              then (pl.data dN).tail_N + 1 else 0) = (pl.data dN).head_N) :
    ((plotDataInsert pl dN row).data dN).head_N =
      (if (pl.data dN).head_N < (pl.data dN).length_N - 1
       then (pl.data dN).head_N + 1 else 0) ∧
    ((plotDataInsert pl dN row).data dN).id_N = (pl.data dN).id_N + 1 := by
  unfold plotDataInsert
  simp only [wipeMemo_data, halloc]
  simp only [hmeet.symm]
  simp [updF]

/-- C1: The spec's ring-overflow scenario is wrong about the code.  A
dataset of `length = 4` holds at most three valid rows: `plotDataInsert`
evicts as soon as the advanced tail would meet the head, so after
inserting `1..5` the valid rows are NOT `[2, 3, 4, 5]` and the logical
id of the head row is NOT `1`. -/
theorem C1_counterexample :
    validColumn scenarioRingOverflow 0 0 ≠ [some 2, some 3, some 4, some 5] ∧
    (scenarioRingOverflow.data 0).id_N ≠ 1 := by
  constructor
  · decide
  · decide

/-- C1 (amended): with `column_N = 1`, `length = 4`, inserting
`1, 2, 3, 4, 5` leaves exactly the rows `[3, 4, 5]` valid from head to
tail, with logical id `2` at the head row and logical id `4` at the last
row; and in general, when the advanced tail meets the head,
`plotDataInsert` evicts the oldest row by advancing `head_N` and
incrementing `id_N`. -/
theorem C1_amended :
    (validColumn scenarioRingOverflow 0 0 = [some 3, some 4, some 5] ∧
     (scenarioRingOverflow.data 0).id_N = 2 ∧
     (scenarioRingOverflow.data 0).head_N = 2 ∧
     (scenarioRingOverflow.data 0).tail_N = 1 ∧
     (scenarioRingOverflow.data 0).id_N + ringDist (scenarioRingOverflow.data 0) - 1 = 4) ∧
    ∀ (pl : Plot) (dN : ℕ) (row : List Val) (buf : ℕ → Val),
      (pl.data dN).raw ((pl.data dN).tail_N >>> (pl.data dN).chunk_SHIFT) = some buf →
      (if (pl.data dN).tail_N < (pl.data dN).length_N - 1
       then (pl.data dN).tail_N + 1 else 0) = (pl.data dN).head_N →
      ((plotDataInsert pl dN row).data dN).head_N =
        (if (pl.data dN).head_N < (pl.data dN).length_N - 1
         then (pl.data dN).head_N + 1 else 0) ∧
      ((plotDataInsert pl dN row).data dN).id_N = (pl.data dN).id_N + 1 := by
  refine ⟨⟨by decide, by decide, by decide, by decide, by decide⟩, ?_⟩
  intro pl dN row buf halloc hmeet
  exact plotDataInsert_evicts pl dN row buf halloc hmeet

/-- Witness for `C1_amended`: the general eviction clause applied to a
concrete length-1 dataset, on which the first insert already evicts. -/
theorem C1_amended_witness :
    ((plotDataInsert (mkPlot 1 1 1 1 1 1 1 0) 0 [some 7]).data 0).head_N = 0 ∧
    ((plotDataInsert (mkPlot 1 1 1 1 1 1 1 0) 0 [some 7]).data 0).id_N = 1 := by
  have h := C1_amended.2 (mkPlot 1 1 1 1 1 1 1 0) 0 [some 7] (fun _ => none)
    rfl (by decide)
  simpa using h

/-- C9: `plotDataInsert` drops the row exactly when the target chunk's
buffer is missing (NULL), in which case the dataset — head, tail, id,
sub and all stored cells — is left entirely unchanged; when the buffer
is present the row values are stored at the old tail row. -/
theorem C9_theorem (pl : Plot) (dN : ℕ) (row : List Val) :
    ((pl.data dN).raw ((pl.data dN).tail_N >>> (pl.data dN).chunk_SHIFT) = none →
      (plotDataInsert pl dN row).data dN = pl.data dN) ∧
    (∀ buf, (pl.data dN).raw ((pl.data dN).tail_N >>> (pl.data dN).chunk_SHIFT) = some buf →
      ∀ c, c < (pl.data dN).column_N →
        rowCell (plotDataInsert pl dN row) dN (pl.data dN).tail_N c =
          row.getD c none) := by
  constructor
  · intro hnull
    unfold plotDataInsert
    simp only [wipeMemo_data, hnull]
  · intro buf halloc c hc
    unfold plotDataInsert
    simp only [wipeMemo_data, wipeMemo_subtractK, halloc]
    by_cases hmeet : (pl.data dN).head_N =
        (if (pl.data dN).tail_N < (pl.data dN).length_N - 1
         then (pl.data dN).tail_N + 1 else 0)
    · rw [if_pos hmeet]
      unfold rowCell
      simp only [updF_same]
      rw [if_pos (by constructor; exact Nat.le_add_right _ _; omega)]
      congr 1
      omega
    · rw [if_neg hmeet]
      unfold rowCell
      simp only [updF_same]
      rw [if_pos (by constructor; exact Nat.le_add_right _ _; omega)]
      congr 1
      omega

/-- `plotAxisConv` on a slave axis is the viewport composition (for the
axis's own type tag) of the composed linear relation
`v*sA*sB + (oA*sB + oB)`. -/
theorem plotAxisConv_slave_compose (pl : Plot) (aN : ℕ) (v : ℚ)
    (h : (pl.axis aN).slave = true) :
    plotAxisConv pl aN v =
      axisViewportCompose pl (pl.axis aN).busy
        (v * ((pl.axis aN).scale * (pl.axis (pl.axis aN).slave_N).scale) +
         ((pl.axis aN).offset * (pl.axis (pl.axis aN).slave_N).scale +
          (pl.axis (pl.axis aN).slave_N).offset)) := by
  unfold plotAxisConv axisViewportCompose
  simp only [h, if_true]
  rcases hb : (pl.axis aN).busy <;> simp [hb] <;> ring

/-- When a slave axis and its (non-slave) base share the same type tag,
the composed conversion factors through the base's conversion. -/
theorem plotAxisConv_slave_via_base (pl : Plot) (aN : ℕ) (v : ℚ)
    (h : (pl.axis aN).slave = true)
    (hb : (pl.axis (pl.axis aN).slave_N).slave = false)
    (hbusy : (pl.axis aN).busy = (pl.axis (pl.axis aN).slave_N).busy) :
    plotAxisConv pl aN v =
      plotAxisConv pl (pl.axis aN).slave_N
        (v * (pl.axis aN).scale + (pl.axis aN).offset) := by
  unfold plotAxisConv
  simp only [h, hb, if_true, if_false, Bool.false_eq_true]
  rw [← hbusy]
  rcases hc : (pl.axis aN).busy <;> simp [hc] <;> ring

/-- plotAxisSlave rejects (as a strict no-op) any ENABLE/HOLD request
whose base axis is itself a slave (plot.c:2531-2535). -/
theorem plotAxisSlave_rejects_slave_base (pl : Plot) (aN : ℕ) (bN : ℤ)
    (s o : ℚ) (act : SlaveAction) (hact : act ≠ .DISABLE)
    (hslave : (pl.axis bN.toNat).slave = true) :
    plotAxisSlave pl aN bN s o act = pl := by
  simp [plotAxisSlave, hact, hslave]

/-- C6: the claim's conversion identity fails on the code when the
slave and the base axis carry different type tags, because
`plotAxisConv` applies the viewport transform of the axis it is called
on.  In `axisSlavedPlot` — built by `plotAxisSlave(1, 0, 1, 0, ENABLE)`
from a state with axis 0 busy as X and axis 1 free — axis 1 is a slave
of axis 0 with the identity local relation `(sA, oA) = (1, 0)`, yet
`plotAxisConv(1, 1) = 1` while `plotAxisConv(0, 1*sA + oA) = 100`. -/
theorem C6_counterexample :
    (axisSlavedPlot.axis 1).slave = true ∧
    (axisSlavedPlot.axis 1).slave_N = 0 ∧
    (axisSlavedPlot.axis 1).scale = 1 ∧
    (axisSlavedPlot.axis 1).offset = 0 ∧
    (axisSlavedPlot.axis 0).slave = false ∧
    plotAxisConv axisSlavedPlot 1 1 ≠
      plotAxisConv axisSlavedPlot 0
        (1 * (axisSlavedPlot.axis 1).scale + (axisSlavedPlot.axis 1).offset) := by
  refine ⟨by decide, by decide, ?_⟩
  norm_num [axisSlavedPlot, axisTestPlot, plotAxisSlave, plotAxisConv, mkPlot,
    mkAxis, updF, List.range, List.range.loop]
  norm_num [show (AxisBusy.FREE = AxisBusy.BUSY_X) = False by simp,
    show (AxisBusy.FREE = AxisBusy.BUSY_Y) = False by simp]

/-- C6 (amended): for a slave axis `a` with base `b` and local relation
`(sA, oA)`, `plotAxisConv(a, v)` is the viewport composition (of `a`'s
own type) of `v*sA*sB + oA*sB + oB`; it equals
`plotAxisConv(b, v*sA + oA)` whenever `a` and `b` carry the same type
tag (and the base is not itself a slave); and `plotAxisSlave` rejects
any ENABLE/HOLD request whose base is itself a slave, so no axis
becomes a slave of a slave. -/
theorem C6_amended :
    (∀ (pl : Plot) (aN : ℕ) (v : ℚ), (pl.axis aN).slave = true →
      plotAxisConv pl aN v =
        axisViewportCompose pl (pl.axis aN).busy
          (v * ((pl.axis aN).scale * (pl.axis (pl.axis aN).slave_N).scale) +
           ((pl.axis aN).offset * (pl.axis (pl.axis aN).slave_N).scale +
            (pl.axis (pl.axis aN).slave_N).offset))) ∧
    (∀ (pl : Plot) (aN : ℕ) (v : ℚ), (pl.axis aN).slave = true →
      (pl.axis (pl.axis aN).slave_N).slave = false →
      (pl.axis aN).busy = (pl.axis (pl.axis aN).slave_N).busy →
      plotAxisConv pl aN v =
        plotAxisConv pl (pl.axis aN).slave_N
          (v * (pl.axis aN).scale + (pl.axis aN).offset)) ∧
    (∀ (pl : Plot) (aN : ℕ) (bN : ℤ) (s o : ℚ) (act : SlaveAction),
      act ≠ .DISABLE → (pl.axis bN.toNat).slave = true →
      plotAxisSlave pl aN bN s o act = pl) := by
  refine ⟨?_, ?_, ?_⟩
  · intro pl aN v h
    exact plotAxisConv_slave_compose pl aN v h
  · intro pl aN v h hb hbusy
    exact plotAxisConv_slave_via_base pl aN v h hb hbusy
  · intro pl aN bN s o act hact hslave
    exact plotAxisSlave_rejects_slave_base pl aN bN s o act hact hslave

/-- Witness for `C6_amended`: on `slaveMatchedPlot` (axis 1 slaved to
axis 0, both of X type, local relation `(2, 3)`) the two conversions
coincide, and an ENABLE naming the slave axis 1 as base is a no-op. -/
theorem C6_amended_witness :
    plotAxisConv slaveMatchedPlot 1 1 =
      plotAxisConv slaveMatchedPlot 0
        (1 * (slaveMatchedPlot.axis 1).scale + (slaveMatchedPlot.axis 1).offset) ∧
    plotAxisSlave slaveMatchedPlot 2 1 5 6 .ENABLE = slaveMatchedPlot := by
  constructor
  · exact C6_amended.2.1 slaveMatchedPlot 1 1 (by decide) (by decide) (by decide)
  · exact C6_amended.2.2 slaveMatchedPlot 2 1 5 6 .ENABLE (by decide) (by decide)

/-- C10: the manual scaling primitives leave the whole engine state
unchanged on a slave axis — `plotAxisScaleManual`, `plotAxisScaleZoom`
and `plotAxisScaleMove` all return before touching scale or offset —
and `plotAxisScaleManual` is likewise a strict no-op on a FREE axis. -/
theorem C10_theorem :
    (∀ (pl : Plot) (aN : ℕ) (mn mx : ℚ), (pl.axis aN).slave = true →
      plotAxisScaleManual pl aN mn mx = pl) ∧
    (∀ (pl : Plot) (aN : ℕ) (mn mx : ℚ), (pl.axis aN).busy = .FREE →
      plotAxisScaleManual pl aN mn mx = pl) ∧
    (∀ (pl : Plot) (aN : ℕ) (origin : ℤ) (zoom : ℚ), (pl.axis aN).slave = true →
      plotAxisScaleZoom pl aN origin zoom = pl) ∧
    (∀ (pl : Plot) (aN : ℕ) (move : ℤ), (pl.axis aN).slave = true →
      plotAxisScaleMove pl aN move = pl) := by
  refine ⟨?_, ?_, ?_, ?_⟩
  · intro pl aN mn mx h
    simp [plotAxisScaleManual, h]
  · intro pl aN mn mx h
    simp [plotAxisScaleManual, h]
  · intro pl aN origin zoom h
    simp [plotAxisScaleZoom, h]
  · intro pl aN move h
    simp [plotAxisScaleMove, h]

/-- Witness for `C10_theorem`: all four no-op clauses at the concrete
state `slaveAxisPlot` (axis 1 a slave; axis 2 free). -/
theorem C10_theorem_witness :
    plotAxisScaleManual slaveAxisPlot 1 0 1 = slaveAxisPlot ∧
    plotAxisScaleManual slaveAxisPlot 2 0 1 = slaveAxisPlot ∧
    plotAxisScaleZoom slaveAxisPlot 1 5 2 = slaveAxisPlot ∧
    plotAxisScaleMove slaveAxisPlot 1 7 = slaveAxisPlot := by
  refine ⟨?_, ?_, ?_, ?_⟩
  · exact C10_theorem.1 slaveAxisPlot 1 0 1 (by decide)
  · exact C10_theorem.2.1 slaveAxisPlot 2 0 1 (by decide)
  · exact C10_theorem.2.2.1 slaveAxisPlot 1 5 2 (by decide)
  · exact C10_theorem.2.2.2 slaveAxisPlot 1 7 (by decide)

/-- The TIME_UNWRAP recurrence on a finite input behaves as stored and
emitted by the loop body (plot.c:1009-1027): the new state keeps the
input as `prev`, the emitted value is `input + unwrap`, and — the
monotonicity kernel — the emitted value never falls below
`prev + old unwrap`. -/
theorem timeUnwrapStep_finite (s : TimeState) (p x : ℚ) (hs : s.prev = some p) :
    ∃ u, (timeUnwrapStep s (some x)).1 = ⟨u, some x, some p⟩ ∧
      (timeUnwrapStep s (some x)).2 = some (x + u) ∧
      p + s.unwrap ≤ x + u := by
  unfold timeUnwrapStep
  simp only [hs, fp_isfinite, Option.isSome_some, if_true, fAdd]
  by_cases hx : x < p
  · cases hp2 : s.prev2 with
    | none =>
        refine ⟨s.unwrap + (p - x), ?_, ?_, by linarith⟩ <;> simp [hx, hp2]
    | some p2 =>
        by_cases h2 : p2 < p
        · refine ⟨s.unwrap + (p - x) + (p - p2), ?_, ?_, by linarith⟩ <;>
            simp [hx, hp2, h2]
        · refine ⟨s.unwrap + (p - x), ?_, ?_, by linarith⟩ <;> simp [hx, hp2, h2]
  · refine ⟨s.unwrap, ?_, ?_, by push_neg at hx; linarith⟩ <;> simp [hx]

/-- First finite input on a NaN `prev` (the fresh state): comparisons
with NaN are false, so the offset is unchanged and the input becomes
`prev`. -/
theorem timeUnwrapStep_start (s : TimeState) (x : ℚ) (hs : s.prev = none) :
    timeUnwrapStep s (some x) = (⟨s.unwrap, some x, none⟩, some (x + s.unwrap)) := by
  unfold timeUnwrapStep
  simp [hs, fp_isfinite, fAdd]

/-- Once `prev` holds a finite value `p`, the emitted sequence over any
all-finite input extends the non-decreasing chain started at
`p + unwrap`. -/
theorem timeUnwrapRun_chain (xs : List ℚ) (s : TimeState) (p : ℚ)
    (hs : s.prev = some p) :
    ∃ qs : List ℚ, (timeUnwrapRun s (xs.map some)).2 = qs.map some ∧
      List.Chain' (· ≤ ·) ((p + s.unwrap) :: qs) := by
  induction xs generalizing s p with
  | nil => exact ⟨[], rfl, by simp⟩
  | cons x xs ih =>
      obtain ⟨u, h1, h2, h3⟩ := timeUnwrapStep_finite s p x hs
      obtain ⟨qs, hq1, hq2⟩ := ih (timeUnwrapStep s (some x)).1 x (by rw [h1])
      refine ⟨(x + u) :: qs, ?_, ?_⟩
      · simp only [List.map_cons, timeUnwrapRun, h2, hq1]
      · rw [h1] at hq2
        exact List.chain'_cons.2 ⟨h3, hq2⟩

/-- C4: the spec's time-unwrap scenario is wrong about the code.  On the
source column `[0.0, 0.5, 1.0, 0.2, 0.7, 1.2]`, the TIME_UNWRAP loop
(applied from head with fresh state) does NOT produce
`[0.0, 0.5, 1.0, 1.2, 1.7, 2.2]`: at the backward step `1.0 → 0.2` the
code adds `prev - x = 0.8` AND `prev - prev2 = 0.5` (because
`prev2 = 0.5 < prev = 1.0`), giving `0.2 + 1.3 = 1.5`, not `1.2`. -/
theorem C4_counterexample :
    (timeUnwrapRun freshTimeState
      [some 0, some (1/2), some 1, some (1/5), some (7/10), some (6/5)]).2 ≠
      [some 0, some (1/2), some 1, some (6/5), some (17/10), some (11/5)] := by
  norm_num [timeUnwrapRun, timeUnwrapStep, fAdd, fp_isfinite, freshTimeState]

/-- C4 (amended): applying the TIME_UNWRAP recurrence (the
SUBTRACT_TIME_UNWRAP loop of `plotDataSubtract`, from head with fresh
state) to the source column `[0.0, 0.5, 1.0, 0.2, 0.7, 1.2]` produces
the output column `[0.0, 0.5, 1.0, 1.5, 2.0, 2.5]`: the two-tick
heuristic continues the previous slope across the wrap. -/
theorem C4_amended :
    (timeUnwrapRun freshTimeState
      [some 0, some (1/2), some 1, some (1/5), some (7/10), some (6/5)]).2 =
      [some 0, some (1/2), some 1, some (3/2), some 2, some (5/2)] := by
  norm_num [timeUnwrapRun, timeUnwrapStep, fAdd, fp_isfinite, freshTimeState]

/-- C5: the TIME_UNWRAP output sequence is non-decreasing over finite
inputs, and the computation may be split arbitrarily into incremental
runs with the running state preserved between calls — exactly the
`[sub_N, tail_N)` incremental invocations of `plotDataSubtract`, whose
running state `(unwrap, prev, prev2)` is saved and restored across
calls (plot.c:998-1001, 1033-1035).  First clause: splitting is
invisible (the run over `xs ++ ys` is the run over `xs` followed by the
run over `ys` from the carried state).  Second clause: from the fresh
state, an all-finite input yields an all-finite, non-decreasing output
column. -/
theorem C5_theorem :
    (∀ (s : TimeState) (xs ys : List Val),
      timeUnwrapRun s (xs ++ ys) =
        ((timeUnwrapRun (timeUnwrapRun s xs).1 ys).1,
         (timeUnwrapRun s xs).2 ++ (timeUnwrapRun (timeUnwrapRun s xs).1 ys).2)) ∧
    (∀ xs : List ℚ, ∃ qs : List ℚ,
      (timeUnwrapRun freshTimeState (xs.map some)).2 = qs.map some ∧
      qs.Chain' (· ≤ ·)) := by
  constructor
  · intro s xs ys
    induction xs generalizing s with
    | nil => simp [timeUnwrapRun]
    | cons x xs ih => simp [timeUnwrapRun, ih]
  · intro xs
    cases xs with
    | nil => exact ⟨[], rfl, by simp⟩
    | cons x xs =>
        have h0 := timeUnwrapStep_start freshTimeState x rfl
        obtain ⟨qs, hq1, hq2⟩ := timeUnwrapRun_chain xs
          (timeUnwrapStep freshTimeState (some x)).1 x (by rw [h0])
        refine ⟨(x + freshTimeState.unwrap) :: qs, ?_, ?_⟩
        · rw [h0] at hq1
          simp only [List.map_cons, timeUnwrapRun, h0, hq1]
        · rw [h0] at hq2
          simpa using hq2

theorem freeSlot_proj (pl : Plot) (dN sN : ℕ) :
    (freeSlot pl dN sN).figuresMax = pl.figuresMax ∧
    (freeSlot pl dN sN).figure = pl.figure ∧
    (freeSlot pl dN sN).subtractK = pl.subtractK ∧
    ((freeSlot pl dN sN).data dN).column_N = (pl.data dN).column_N ∧
    ∀ s2, s2 ≠ sN → ((freeSlot pl dN sN).data dN).sub s2 = (pl.data dN).sub s2 := by
  refine ⟨rfl, rfl, rfl, by simp [freeSlot, updF], ?_⟩
  intro s2 h2
  simp [freeSlot, updF, h2]

theorem sweepPassGo_preserve (dN : ℕ) (l : List ℕ) (pl : Plot) (n : ℕ) :
    (sweepPassGo dN l pl n).1.figuresMax = pl.figuresMax ∧
    (sweepPassGo dN l pl n).1.figure = pl.figure ∧
    (sweepPassGo dN l pl n).1.subtractK = pl.subtractK ∧
    ((sweepPassGo dN l pl n).1.data dN).column_N = (pl.data dN).column_N := by
  induction l generalizing pl n with
  | nil => exact ⟨rfl, rfl, rfl, rfl⟩
  | cons s rest ih =>
      unfold sweepPassGo
      by_cases h1 : ((pl.data dN).sub s).isFree
      · simpa [h1] using ih pl n
      · by_cases h2 : plotCheckColumnLinked pl dN ((s : ℤ) + ((pl.data dN).column_N : ℤ))
        · simpa [h1, h2] using ih pl n
        · have hp := freeSlot_proj pl dN s
          have := ih (freeSlot pl dN s) (n + 1)
          simp only [h1, h2, Bool.false_eq_true, if_false, if_true]
          rw [hp.1, hp.2.1, hp.2.2.1, hp.2.2.2.1] at this
          simpa [h1, h2] using this

theorem sweepPassGo_count_le (dN : ℕ) (l : List ℕ) (pl : Plot) (n : ℕ) :
    n ≤ (sweepPassGo dN l pl n).2 := by
  induction l generalizing pl n with
  | nil => exact le_refl n
  | cons s rest ih =>
      unfold sweepPassGo
      by_cases h1 : ((pl.data dN).sub s).isFree
      · simpa [h1] using ih pl n
      · by_cases h2 : plotCheckColumnLinked pl dN ((s : ℤ) + ((pl.data dN).column_N : ℤ))
        · simpa [h1, h2] using ih pl n
        · have := ih (freeSlot pl dN s) (n + 1)
          simp only [h1, h2, Bool.false_eq_true, if_false, if_true]
          omega

theorem sweepPassGo_zero_id (dN : ℕ) (l : List ℕ) (pl : Plot) (n : ℕ)
    (h : (sweepPassGo dN l pl n).2 = n) : (sweepPassGo dN l pl n).1 = pl := by
  induction l generalizing pl n with
  | nil => rfl
  | cons s rest ih =>
      unfold sweepPassGo at h ⊢
      by_cases h1 : ((pl.data dN).sub s).isFree
      · simp only [h1, if_true] at h ⊢
        exact ih pl n h
      · by_cases h2 : plotCheckColumnLinked pl dN ((s : ℤ) + ((pl.data dN).column_N : ℤ))
        · simp only [h1, h2, Bool.false_eq_true, if_false, if_true] at h ⊢
          exact ih pl n h
        · exfalso
          simp only [h1, h2, Bool.false_eq_true, if_false, if_true] at h
          have := sweepPassGo_count_le dN rest (freeSlot pl dN s) (n + 1)
          omega

theorem sweepPassGo_zero_linked (dN : ℕ) (l : List ℕ) (pl : Plot) (n : ℕ)
    (h : (sweepPassGo dN l pl n).2 = n) :
    ∀ sN ∈ l, ((pl.data dN).sub sN).isFree = false →
      plotCheckColumnLinked pl dN ((sN : ℤ) + ((pl.data dN).column_N : ℤ)) = true := by
  induction l generalizing pl n with
  | nil => intro sN hm; exact absurd hm (List.not_mem_nil sN)
  | cons s rest ih =>
      intro sN hm hbusy
      unfold sweepPassGo at h
      by_cases h1 : ((pl.data dN).sub s).isFree
      · simp only [h1, if_true] at h
        rcases List.mem_cons.1 hm with hh | hh
        · rw [hh] at hbusy; rw [h1] at hbusy; exact absurd hbusy (by simp)
        · exact ih pl n h sN hh hbusy
      · by_cases h2 : plotCheckColumnLinked pl dN ((s : ℤ) + ((pl.data dN).column_N : ℤ))
        · simp only [h1, h2, Bool.false_eq_true, if_false, if_true] at h
          rcases List.mem_cons.1 hm with hh | hh
          · rw [hh]; exact h2
          · exact ih pl n h sN hh hbusy
        · exfalso
          simp only [h1, h2, Bool.false_eq_true, if_false, if_true] at h
          have := sweepPassGo_count_le dN rest (freeSlot pl dN s) (n + 1)
          omega

theorem busyCount_freeSlot_le (pl : Plot) (dN sN : ℕ) :
    busyCount (freeSlot pl dN sN) dN ≤ busyCount pl dN := by
  apply Finset.card_le_card
  intro x hx
  simp only [busyCount, Finset.mem_filter, Finset.mem_range] at hx ⊢
  rcases hx with ⟨hr, hb⟩
  refine ⟨hr, ?_⟩
  by_cases hxs : x = sN
  · exfalso
    rw [hxs] at hb
    simp [freeSlot, updF, SubSlot.isFree] at hb
  · rwa [(freeSlot_proj pl dN sN).2.2.2.2 x hxs] at hb

theorem busyCount_freeSlot_lt (pl : Plot) (dN sN : ℕ) (hs : sN < pl.subtractK)
    (hb : ((pl.data dN).sub sN).isFree = false) :
    busyCount (freeSlot pl dN sN) dN < busyCount pl dN := by
  apply Finset.card_lt_card
  constructor
  · intro x hx
    simp only [busyCount, Finset.mem_filter, Finset.mem_range] at hx ⊢
    rcases hx with ⟨hr, hbx⟩
    refine ⟨hr, ?_⟩
    by_cases hxs : x = sN
    · exfalso
      rw [hxs] at hbx
      simp [freeSlot, updF, SubSlot.isFree] at hbx
    · rwa [(freeSlot_proj pl dN sN).2.2.2.2 x hxs] at hbx
  · intro hsub
    have := hsub (Finset.mem_filter.2 ⟨Finset.mem_range.2 hs, hb⟩)
    simp only [Finset.mem_filter] at this
    have h2 := this.2
    simp [freeSlot, updF, SubSlot.isFree] at h2

theorem busyCount_congr (pl pl2 : Plot) (dN : ℕ)
    (hK : pl2.subtractK = pl.subtractK)
    (hsub : ∀ s, (pl2.data dN).sub s = (pl.data dN).sub s) :
    busyCount pl2 dN = busyCount pl dN := by
  unfold busyCount
  rw [hK]
  congr 1
  apply Finset.filter_congr
  intro x _
  rw [hsub x]

theorem sweepPassGo_busy_le (dN : ℕ) (l : List ℕ) (pl : Plot) (n : ℕ) :
    busyCount (sweepPassGo dN l pl n).1 dN ≤ busyCount pl dN := by
  induction l generalizing pl n with
  | nil => exact le_refl _
  | cons s rest ih =>
      unfold sweepPassGo
      by_cases h1 : ((pl.data dN).sub s).isFree
      · simpa [h1] using ih pl n
      · by_cases h2 : plotCheckColumnLinked pl dN ((s : ℤ) + ((pl.data dN).column_N : ℤ))
        · simpa [h1, h2] using ih pl n
        · simp only [h1, h2, Bool.false_eq_true, if_false, if_true]
          exact le_trans (ih (freeSlot pl dN s) (n + 1)) (busyCount_freeSlot_le pl dN s)

theorem sweepPassGo_busy_lt (dN : ℕ) (l : List ℕ) (pl : Plot) (n : ℕ)
    (hl : ∀ sN ∈ l, sN < pl.subtractK)
    (h : (sweepPassGo dN l pl n).2 ≠ n) :
    busyCount (sweepPassGo dN l pl n).1 dN < busyCount pl dN := by
  induction l generalizing pl n with
  | nil => exact absurd rfl h
  | cons s rest ih =>
      unfold sweepPassGo at h ⊢
      by_cases h1 : ((pl.data dN).sub s).isFree
      · simp only [h1, if_true] at h ⊢
        exact ih pl n (fun x hx => hl x (List.mem_cons_of_mem s hx)) h
      · by_cases h2 : plotCheckColumnLinked pl dN ((s : ℤ) + ((pl.data dN).column_N : ℤ))
        · simp only [h1, h2, Bool.false_eq_true, if_false, if_true] at h ⊢
          exact ih pl n (fun x hx => hl x (List.mem_cons_of_mem s hx)) h
        · simp only [h1, h2, Bool.false_eq_true, if_false, if_true] at h ⊢
          calc busyCount (sweepPassGo dN rest (freeSlot pl dN s) (n + 1)).1 dN
              ≤ busyCount (freeSlot pl dN s) dN := sweepPassGo_busy_le dN rest _ _
            _ < busyCount pl dN :=
                busyCount_freeSlot_lt pl dN s (hl s (List.mem_cons_self s rest))
                  (by simpa using h1)

theorem columnReadByFigure_congr (pl pl2 : Plot) (cN : ℤ)
    (h1 : pl2.figure = pl.figure) (h2 : pl2.figuresMax = pl.figuresMax) :
    columnReadByFigure pl2 cN = columnReadByFigure pl cN := by
  unfold columnReadByFigure
  rw [h1, h2]

theorem columnReadByFigure_linked (pl : Plot) (dN : ℕ) (cN : ℤ)
    (h : columnReadByFigure pl cN = true) :
    plotCheckColumnLinked pl dN cN = true := by
  unfold plotCheckColumnLinked
  rw [h, Bool.or_true]

theorem sweepPassGo_figLinked_survives (dN : ℕ) (l : List ℕ) (pl : Plot) (n : ℕ)
    (sN : ℕ)
    (h : columnReadByFigure pl ((sN : ℤ) + ((pl.data dN).column_N : ℤ)) = true) :
    ((sweepPassGo dN l pl n).1.data dN).sub sN = (pl.data dN).sub sN := by
  induction l generalizing pl n with
  | nil => rfl
  | cons s rest ih =>
      unfold sweepPassGo
      by_cases h1 : ((pl.data dN).sub s).isFree
      · simpa [h1] using ih pl n h
      · by_cases h2 : plotCheckColumnLinked pl dN ((s : ℤ) + ((pl.data dN).column_N : ℤ))
        · simpa [h1, h2] using ih pl n h
        · simp only [h1, h2, Bool.false_eq_true, if_false, if_true]
          have hsne : s ≠ sN := by
            intro he
            rw [he] at h2
            exact h2 (columnReadByFigure_linked pl dN _ h)
          have hp := freeSlot_proj pl dN s
          have hfig : columnReadByFigure (freeSlot pl dN s)
              ((sN : ℤ) + (((freeSlot pl dN s).data dN).column_N : ℤ)) = true := by
            rw [hp.2.2.2.1, columnReadByFigure_congr pl _ _ hp.2.1 hp.1]
            exact h
          have := ih (freeSlot pl dN s) (n + 1) hfig
          rw [this, hp.2.2.2.2 sN (Ne.symm hsne)]

theorem loop_preserve (fuel : ℕ) (pl : Plot) (dN : ℕ) :
    (plotSubtractGarbageLoop fuel pl dN).figuresMax = pl.figuresMax ∧
    (plotSubtractGarbageLoop fuel pl dN).figure = pl.figure ∧
    (plotSubtractGarbageLoop fuel pl dN).subtractK = pl.subtractK ∧
    ((plotSubtractGarbageLoop fuel pl dN).data dN).column_N = (pl.data dN).column_N := by
  induction fuel generalizing pl with
  | zero => exact ⟨rfl, rfl, rfl, rfl⟩
  | succ c ih =>
      unfold plotSubtractGarbageLoop
      have hp := sweepPassGo_preserve dN (List.range pl.subtractK) pl 0
      by_cases hz : (sweepPass pl dN).2 = 0
      · simpa [hz] using hp
      · have := ih (sweepPass pl dN).1
        simp only [hz, if_false]
        unfold sweepPass at hp this ⊢
        exact ⟨this.1.trans hp.1, this.2.1.trans hp.2.1, this.2.2.1.trans hp.2.2.1,
          this.2.2.2.trans hp.2.2.2⟩

theorem loop_figLinked_survives (fuel : ℕ) (pl : Plot) (dN sN : ℕ)
    (h : columnReadByFigure pl ((sN : ℤ) + ((pl.data dN).column_N : ℤ)) = true) :
    ((plotSubtractGarbageLoop fuel pl dN).data dN).sub sN = (pl.data dN).sub sN := by
  induction fuel generalizing pl with
  | zero => rfl
  | succ c ih =>
      unfold plotSubtractGarbageLoop
      have hgo := sweepPassGo_figLinked_survives dN (List.range pl.subtractK) pl 0 sN h
      by_cases hz : (sweepPass pl dN).2 = 0
      · simpa [hz] using hgo
      · simp only [hz, if_false]
        have hp := sweepPassGo_preserve dN (List.range pl.subtractK) pl 0
        have hfig : columnReadByFigure (sweepPass pl dN).1
            ((sN : ℤ) + (((sweepPass pl dN).1.data dN).column_N : ℤ)) = true := by
          show columnReadByFigure (sweepPassGo dN (List.range pl.subtractK) pl 0).1
            ((sN : ℤ) +
              (((sweepPassGo dN (List.range pl.subtractK) pl 0).1.data dN).column_N : ℤ)) = true
          rw [hp.2.2.2, columnReadByFigure_congr pl _ _ hp.2.1 hp.1]
          exact h
        have := ih (sweepPass pl dN).1 hfig
        rw [this]
        exact hgo

theorem loop_fixpoint (fuel : ℕ) (pl : Plot) (dN : ℕ)
    (h : busyCount pl dN < fuel) :
    sweepPass (plotSubtractGarbageLoop fuel pl dN) dN =
      (plotSubtractGarbageLoop fuel pl dN, 0) := by
  induction fuel generalizing pl with
  | zero => omega
  | succ c ih =>
      unfold plotSubtractGarbageLoop
      by_cases hz : (sweepPass pl dN).2 = 0
      · simp only [hz, if_true]
        have hid : (sweepPass pl dN).1 = pl :=
          sweepPassGo_zero_id dN (List.range pl.subtractK) pl 0 hz
        rw [hid]
        have : sweepPass pl dN = (pl, 0) := by
          have := Prod.mk.eta (p := sweepPass pl dN)
          rw [← this, hid, hz]
        exact this
      · simp only [hz, if_false]
        apply ih
        have hlt : busyCount (sweepPass pl dN).1 dN < busyCount pl dN := by
          unfold sweepPass
          apply sweepPassGo_busy_lt dN (List.range pl.subtractK) pl 0
          · intro x hx
            exact List.mem_range.1 hx
          · exact hz
        omega

/-- C7: the claim is false — `plotCheckColumnLinked` consults the input
columns of SCALE, BINARY_*, FILTER_* and RESAMPLE slots but NOT those of
TIME_UNWRAP (or POLYFIT) slots, so the sweep frees a slot whose column
is read only by a live TIME_UNWRAP slot.  In `garbagePlot`, slot 0
(SCALE, owning column 1) feeds the live TIME_UNWRAP slot 1 (source
column 1), whose own output column 2 a live figure plots; the sweep
frees slot 0 anyway while keeping slot 1. -/
theorem C7_counterexample :
    (garbagePlot.data 0).sub 1 = .TIME_UNWRAP 1 0 none none ∧
    ((garbagePlot.data 0).sub 0).isFree = false ∧
    (((plotSubtractGarbage garbagePlot 0).data 0).sub 1).isFree = false ∧
    (((plotSubtractGarbage garbagePlot 0).data 0).sub 0).isFree = true := by
  refine ⟨rfl, by decide, by decide, by decide⟩

/-- C7 (amended): `plotSubtractGarbage` iterates to a fixpoint of
single passes; afterwards every surviving slot's owned column is linked
in the sense of `plotCheckColumnLinked` (read by a live figure or used
as input by a live SCALE / BINARY / FILTER / RESAMPLE slot — inputs of
TIME_UNWRAP and POLYFIT slots protect nothing), and any slot whose
owned column is read by a live figure always survives unchanged. -/
theorem C7_amended :
    (∀ (pl : Plot) (dN sN : ℕ), sN < pl.subtractK →
      (((plotSubtractGarbage pl dN).data dN).sub sN).isFree = false →
      plotCheckColumnLinked (plotSubtractGarbage pl dN) dN
        ((sN : ℤ) + (((plotSubtractGarbage pl dN).data dN).column_N : ℤ)) = true) ∧
    (∀ (pl : Plot) (dN sN : ℕ),
      columnReadByFigure pl ((sN : ℤ) + ((pl.data dN).column_N : ℤ)) = true →
      ((plotSubtractGarbage pl dN).data dN).sub sN = (pl.data dN).sub sN) := by
  constructor
  · intro pl dN sN hsN hbusy
    have hbound : busyCount pl dN < pl.subtractK + 1 :=
      lt_of_le_of_lt (le_trans (Finset.card_filter_le _ _) (by simp)) (Nat.lt_succ_self _)
    have hfix := loop_fixpoint (pl.subtractK + 1) pl dN hbound
    have hzero : (sweepPass (plotSubtractGarbage pl dN) dN).2 = 0 := by
      unfold plotSubtractGarbage
      rw [hfix]
    have hK : (plotSubtractGarbage pl dN).subtractK = pl.subtractK :=
      (loop_preserve (pl.subtractK + 1) pl dN).2.2.1
    exact sweepPassGo_zero_linked dN
      (List.range (plotSubtractGarbage pl dN).subtractK)
      (plotSubtractGarbage pl dN) 0 hzero sN
      (List.mem_range.2 (by rw [hK]; exact hsN)) hbusy
  · intro pl dN sN h
    exact loop_figLinked_survives (pl.subtractK + 1) pl dN sN h

/-- Witness for `C7_amended`: both clauses at `garbagePlot` — the
surviving TIME_UNWRAP slot 1 is linked after the sweep, and slot 1
(whose column 2 the figure reads) survives unchanged. -/
theorem C7_amended_witness :
    plotCheckColumnLinked (plotSubtractGarbage garbagePlot 0) 0
      ((1 : ℤ) + (((plotSubtractGarbage garbagePlot 0).data 0).column_N : ℤ)) = true ∧
    ((plotSubtractGarbage garbagePlot 0).data 0).sub 1 = (garbagePlot.data 0).sub 1 := by
  constructor
  · exact C7_amended.1 garbagePlot 0 1 (by decide) (by decide)
  · exact C7_amended.2 garbagePlot 0 1 (by decide)

theorem wipedFor_congr (pl pl2 : Plot) (d k : ℕ)
    (h1 : pl2.rcache = pl.rcache) (h2 : pl2.rcacheSize = pl.rcacheSize)
    (h : wipedFor pl d k) : wipedFor pl2 d k := by
  intro N hN hb hd
  rw [h1] at hb hd ⊢
  rw [h2] at hN
  exact h N hN hb hd

theorem plotDataRangeCacheWipe_wipes (pl : Plot) (dN kN : ℕ) :
    wipedFor (plotDataRangeCacheWipe pl dN kN) dN kN := by
  intro N hN hb hd
  dsimp only [plotDataRangeCacheWipe] at hb hd ⊢
  by_cases hc : N < pl.rcacheSize ∧ (pl.rcache N).busy = true ∧ (pl.rcache N).data_N = dN
  · rw [if_pos hc] at hb hd ⊢
    simp [updF]
  · rw [if_neg hc] at hb hd ⊢
    exact absurd ⟨hN, hb, hd⟩ hc

theorem plotDataRangeCacheWipe_mono (pl : Plot) (dN kN d k : ℕ)
    (h : wipedFor pl d k) : wipedFor (plotDataRangeCacheWipe pl dN kN) d k := by
  intro N hN hb hd
  dsimp only [plotDataRangeCacheWipe] at hb hd ⊢
  by_cases hc : N < pl.rcacheSize ∧ (pl.rcache N).busy = true ∧ (pl.rcache N).data_N = dN
  · rw [if_pos hc] at hb hd ⊢
    refine ⟨?_, rfl⟩
    by_cases hk : k = kN
    · simp [updF, hk]
    · simp only [updF, hk, if_false]
      exact (h N hN hb hd).1
  · rw [if_neg hc] at hb hd ⊢
    exact h N hN hb hd

theorem wipeMemo_wipes (pl : Plot) (dN kN : ℕ) (hinv : WipeMemoInv pl) :
    wipedFor (wipeMemo pl dN kN) dN kN ∧
    WipeMemoInv (wipeMemo pl dN kN) ∧
    (∀ d k, wipedFor pl d k → wipedFor (wipeMemo pl dN kN) d k) := by
  unfold wipeMemo
  by_cases hm : pl.rcache_wipe_data_N ≠ (dN : ℤ) ∨ pl.rcache_wipe_chunk_N ≠ (kN : ℤ)
  · simp only [hm, if_true]
    refine ⟨?_, ?_, ?_⟩
    · exact wipedFor_congr _ _ _ _ rfl rfl (plotDataRangeCacheWipe_wipes pl dN kN)
    · intro d k hd hk
      have hd2 : (dN : ℤ) = (d : ℤ) := hd
      have hk2 : (kN : ℤ) = (k : ℤ) := hk
      have hdd : dN = d := by exact_mod_cast hd2
      have hkk : kN = k := by exact_mod_cast hk2
      rw [← hdd, ← hkk]
      exact wipedFor_congr _ _ _ _ rfl rfl (plotDataRangeCacheWipe_wipes pl dN kN)
    · intro d k h
      exact wipedFor_congr _ _ _ _ rfl rfl (plotDataRangeCacheWipe_mono pl dN kN d k h)
  · simp only [hm, if_false]
    push_neg at hm
    exact ⟨hinv dN kN hm.1 hm.2, hinv, fun d k h => h⟩

theorem plotDataInsert_rcache (pl : Plot) (dN : ℕ) (row : List Val) :
    (plotDataInsert pl dN row).rcache =
      (wipeMemo pl dN ((pl.data dN).tail_N >>> (pl.data dN).chunk_SHIFT)).rcache ∧
    (plotDataInsert pl dN row).rcacheSize = pl.rcacheSize ∧
    (plotDataInsert pl dN row).rcache_wipe_data_N =
      (wipeMemo pl dN ((pl.data dN).tail_N >>> (pl.data dN).chunk_SHIFT)).rcache_wipe_data_N ∧
    (plotDataInsert pl dN row).rcache_wipe_chunk_N =
      (wipeMemo pl dN ((pl.data dN).tail_N >>> (pl.data dN).chunk_SHIFT)).rcache_wipe_chunk_N := by
  have hsz : (wipeMemo pl dN ((pl.data dN).tail_N >>> (pl.data dN).chunk_SHIFT)).rcacheSize
      = pl.rcacheSize := by
    unfold wipeMemo plotDataRangeCacheWipe
    split <;> rfl
  unfold plotDataInsert
  cases hraw : (pl.data dN).raw ((pl.data dN).tail_N >>> (pl.data dN).chunk_SHIFT) with
  | none => simp [hraw, hsz]
  | some buf => simp [hraw, hsz]

theorem plotDataWrite_state (pl : Plot) (dN rN : ℕ) (h : rN ≠ (pl.data dN).tail_N) :
    (plotDataWrite pl dN rN).1 = wipeMemo pl dN (rN >>> (pl.data dN).chunk_SHIFT) := by
  unfold plotDataWrite
  rw [if_pos h]
  cases hraw : (pl.data dN).raw (rN >>> (pl.data dN).chunk_SHIFT) with
  | none => simp [hraw]
  | some buf => simp [hraw]

theorem wipeMemo_hit (pl : Plot) (dN kN : ℕ)
    (hd : pl.rcache_wipe_data_N = (dN : ℤ))
    (hk : pl.rcache_wipe_chunk_N = (kN : ℤ)) :
    wipeMemo pl dN kN = pl := by
  unfold wipeMemo
  rw [if_neg]
  push_neg
  exact ⟨hd, hk⟩

theorem wipeMemo_rcacheSize (pl : Plot) (dN kN : ℕ) :
    (wipeMemo pl dN kN).rcacheSize = pl.rcacheSize := by
  unfold wipeMemo plotDataRangeCacheWipe
  split <;> rfl

theorem plotDataRangeCacheFetch_memo (pl : Plot) (dN : ℕ) (cN : ℤ)
    (hmiss : ¬(plotDataRangeCacheGetNode pl dN cN ≥ 0 ∧
      (pl.rcache (plotDataRangeCacheGetNode pl dN cN).toNat).cached = true)) :
    (plotDataRangeCacheFetch pl dN cN).1.rcache_wipe_data_N = -1 ∧
    (plotDataRangeCacheFetch pl dN cN).1.rcache_wipe_chunk_N = -1 := by
  unfold plotDataRangeCacheFetch
  rw [if_neg (by simpa using hmiss)]
  exact ⟨rfl, rfl⟩

theorem plotDataRangeCacheFetch_inv (pl : Plot) (dN : ℕ) (cN : ℤ)
    (hinv : WipeMemoInv pl) : WipeMemoInv (plotDataRangeCacheFetch pl dN cN).1 := by
  unfold plotDataRangeCacheFetch
  by_cases hm : plotDataRangeCacheGetNode pl dN cN ≥ 0 ∧
      (pl.rcache (plotDataRangeCacheGetNode pl dN cN).toNat).cached
  · rw [if_pos hm]
    exact hinv
  · rw [if_neg hm]
    intro d k hd hk
    exfalso
    have hd2 : (-1 : ℤ) = (d : ℤ) := hd
    omega

/-- C2: the claim is refuted by the code — `plotDataRangeCacheFetch`
does not report the true min/max.  In `rcacheBugPlot` (inserts
`[0, 0, -100, 0]`, a fetch, then inserts `[0, 0]`), the final two
inserts evict the `-100` row without ever writing its chunk again, so
that chunk's entry stays `computed`; the subsequent fetch "refreshes"
the tail chunk by MERGING the stale entry (which still includes the
evicted `-100`) with the live rows instead of rescanning them
(plot.c:1516-1525), and reports `fmin = -100` although every valid row
holds `0`. -/
theorem C2_theorem :
    validColumn rcacheBugPlot 0 0 = [some 0, some 0, some 0] ∧
    ((plotDataRangeCacheFetch rcacheBugPlot 0 0).1.rcache
      (plotDataRangeCacheFetch rcacheBugPlot 0 0).2).data_N = 0 ∧
    ((plotDataRangeCacheFetch rcacheBugPlot 0 0).1.rcache
      (plotDataRangeCacheFetch rcacheBugPlot 0 0).2).column_N = 0 ∧
    ((plotDataRangeCacheFetch rcacheBugPlot 0 0).1.rcache
      (plotDataRangeCacheFetch rcacheBugPlot 0 0).2).cached = true ∧
    ((plotDataRangeCacheFetch rcacheBugPlot 0 0).1.rcache
      (plotDataRangeCacheFetch rcacheBugPlot 0 0).2).fmin = -100 := by
  refine ⟨by decide, by decide, by decide, by decide, by decide⟩

/-- C3: after `plotDataInsert` or `plotDataWrite` touches chunk `k` of
dataset `d`, every busy range-cache entry for `d` has `computed = 0`
on chunk `k` and its aggregate `cached` bit cleared (`wipedFor`), and
further inserts/writes preserve this; the wipe happens at most once per
chunk per streak — with the `(rcache_wipe_data_N, rcache_wipe_chunk_N)`
memo equal to the touched pair the cache array is left untouched — and
`plotDataRangeCacheFetch` resets the memo to `(-1, -1)` whenever it
recomputes (and preserves the memo invariant in all cases). -/
theorem C3_theorem :
    (∀ (pl : Plot) (dN : ℕ) (row : List Val), WipeMemoInv pl →
      wipedFor (plotDataInsert pl dN row) dN
        ((pl.data dN).tail_N >>> (pl.data dN).chunk_SHIFT) ∧
      WipeMemoInv (plotDataInsert pl dN row) ∧
      (∀ d k, wipedFor pl d k → wipedFor (plotDataInsert pl dN row) d k)) ∧
    (∀ (pl : Plot) (dN : ℕ) (row : List Val),
      pl.rcache_wipe_data_N = (dN : ℤ) →
      pl.rcache_wipe_chunk_N = (((pl.data dN).tail_N >>> (pl.data dN).chunk_SHIFT : ℕ) : ℤ) →
      (plotDataInsert pl dN row).rcache = pl.rcache) ∧
    (∀ (pl : Plot) (dN rN : ℕ), rN ≠ (pl.data dN).tail_N → WipeMemoInv pl →
      wipedFor (plotDataWrite pl dN rN).1 dN (rN >>> (pl.data dN).chunk_SHIFT) ∧
      WipeMemoInv (plotDataWrite pl dN rN).1 ∧
      (∀ d k, wipedFor pl d k → wipedFor (plotDataWrite pl dN rN).1 d k)) ∧
    (∀ (pl : Plot) (dN rN : ℕ),
      pl.rcache_wipe_data_N = (dN : ℤ) →
      pl.rcache_wipe_chunk_N = ((rN >>> (pl.data dN).chunk_SHIFT : ℕ) : ℤ) →
      (plotDataWrite pl dN rN).1.rcache = pl.rcache) ∧
    (∀ (pl : Plot) (dN : ℕ) (cN : ℤ), WipeMemoInv pl →
      WipeMemoInv (plotDataRangeCacheFetch pl dN cN).1) ∧
    (∀ (pl : Plot) (dN : ℕ) (cN : ℤ),
      ¬(plotDataRangeCacheGetNode pl dN cN ≥ 0 ∧
        (pl.rcache (plotDataRangeCacheGetNode pl dN cN).toNat).cached = true) →
      (plotDataRangeCacheFetch pl dN cN).1.rcache_wipe_data_N = -1 ∧
      (plotDataRangeCacheFetch pl dN cN).1.rcache_wipe_chunk_N = -1) := by
  refine ⟨?_, ?_, ?_, ?_, ?_, ?_⟩
  · intro pl dN row hinv
    have hir := plotDataInsert_rcache pl dN row
    have hw := wipeMemo_wipes pl dN ((pl.data dN).tail_N >>> (pl.data dN).chunk_SHIFT) hinv
    have hsz : (plotDataInsert pl dN row).rcacheSize =
        (wipeMemo pl dN ((pl.data dN).tail_N >>> (pl.data dN).chunk_SHIFT)).rcacheSize := by
      rw [hir.2.1, wipeMemo_rcacheSize]
    refine ⟨wipedFor_congr _ _ _ _ hir.1 hsz hw.1, ?_, ?_⟩
    · intro d k hd hk
      rw [hir.2.2.1] at hd
      rw [hir.2.2.2] at hk
      exact wipedFor_congr _ _ _ _ hir.1 hsz (hw.2.1 d k hd hk)
    · intro d k h
      exact wipedFor_congr _ _ _ _ hir.1 hsz (hw.2.2 d k h)
  · intro pl dN row hd hk
    have hir := plotDataInsert_rcache pl dN row
    rw [hir.1, wipeMemo_hit pl dN _ hd hk]
  · intro pl dN rN hne hinv
    have hst := plotDataWrite_state pl dN rN hne
    rw [hst]
    exact wipeMemo_wipes pl dN (rN >>> (pl.data dN).chunk_SHIFT) hinv
  · intro pl dN rN hd hk
    by_cases hne : rN ≠ (pl.data dN).tail_N
    · rw [plotDataWrite_state pl dN rN hne, wipeMemo_hit pl dN _ hd hk]
    · push_neg at hne
      unfold plotDataWrite
      rw [if_neg (by simpa using hne)]
  · intro pl dN cN hinv
    exact plotDataRangeCacheFetch_inv pl dN cN hinv
  · intro pl dN cN hmiss
    exact plotDataRangeCacheFetch_memo pl dN cN hmiss

/-- Witness for `C3_theorem`: the insert-wipes clause and the
memo-reset clause at a concrete freshly-allocated plot. -/
theorem C3_theorem_witness :
    wipedFor (plotDataInsert (mkPlot 1 1 1 1 1 1 2 0) 0 [some 5]) 0 0 ∧
    (plotDataRangeCacheFetch (mkPlot 1 1 1 1 1 1 2 0) 0 0).1.rcache_wipe_data_N = -1 ∧
    (plotDataRangeCacheFetch (mkPlot 1 1 1 1 1 1 2 0) 0 0).1.rcache_wipe_chunk_N = -1 := by
  have hinv : WipeMemoInv (mkPlot 1 1 1 1 1 1 2 0) := by
    intro d k hd hk N hN hbusy hdata
    exact absurd hbusy (by simp [mkPlot, mkRCacheEntry])
  refine ⟨?_, ?_⟩
  · exact (C3_theorem.1 (mkPlot 1 1 1 1 1 1 2 0) 0 [some 5] hinv).1
  · exact C3_theorem.2.2.2.2.2 (mkPlot 1 1 1 1 1 1 2 0) 0 0 (by decide)

/-- Witness for `C9_theorem`: both clauses at concrete inputs — an
unallocated dataset drops the row and keeps the dataset unchanged; an
allocated one stores the value at the old tail. -/
theorem C9_theorem_witness :
    (plotDataInsert (mkPlot 1 1 1 1 1 1 0 0) 0 [some 7]).data 0 =
      (mkPlot 1 1 1 1 1 1 0 0).data 0 ∧
    rowCell (plotDataInsert (mkPlot 1 1 1 1 1 1 1 0) 0 [some 7]) 0 0 0 = some 7 := by
  constructor
  · exact (C9_theorem (mkPlot 1 1 1 1 1 1 0 0) 0 [some 7]).1 rfl
  · exact (C9_theorem (mkPlot 1 1 1 1 1 1 1 0) 0 [some 7]).2 (fun _ => none) rfl 0
      (by decide)

/-- `envEq` is reflexive. -/
theorem envEq_refl (a : Plot) : envEq a a := ⟨rfl, rfl, rfl⟩

/-- `envEq` is transitive. -/
theorem envEq_trans {a b c : Plot} (h1 : envEq a b) (h2 : envEq b c) : envEq a c :=
  ⟨h1.1.trans h2.1, h1.2.1.trans h2.2.1, h1.2.2.trans h2.2.2⟩

/-- The chunk walk of the range-cache fetch touches only the range
cache: figures and the render flag pass through. -/
theorem fetchLoop_env (fuel : ℕ) : ∀ dN cN xN pl rN id_N started fmin fmax,
    envEq (fetchLoop fuel dN cN xN pl rN id_N started fmin fmax).1 pl := by
  induction fuel with
  | zero => intro dN cN xN pl rN id_N started fmin fmax; exact envEq_refl pl
  | succ f ih =>
      intro dN cN xN pl rN id_N started fmin fmax
      unfold fetchLoop
      lift_lets
      extract_lets
      split
      · split
        · exact ⟨rfl, rfl, rfl⟩
        · exact envEq_trans (ih _ _ _ _ _ _ _ _ _) ⟨rfl, rfl, rfl⟩
      · split
        · exact envEq_refl pl
        · exact envEq_trans (ih _ _ _ _ _ _ _ _ _) (envEq_refl pl)

/-- `plotDataRangeCacheFetch` touches only the range cache and its
memo: figures and the render flag pass through. -/
theorem plotDataRangeCacheFetch_env (pl : Plot) (dN : ℕ) (cN : ℤ) :
    envEq (plotDataRangeCacheFetch pl dN cN).1 pl := by
  unfold plotDataRangeCacheFetch
  dsimp only
  split
  · exact envEq_refl pl
  · split
    · exact envEq_trans ⟨rfl, rfl, rfl⟩
        (envEq_trans (fetchLoop_env _ _ _ _ _ _ _ _ _ _) (envEq_refl pl))
    · exact envEq_trans ⟨rfl, rfl, rfl⟩
        (envEq_trans (fetchLoop_env _ _ _ _ _ _ _ _ _ _) ⟨rfl, rfl, rfl⟩)

/-- `plotSketchDataChunkSetUp` touches only the sketch pool, the lists
and the draw cursor: figures and the render flag pass through. -/
theorem plotSketchDataChunkSetUp_env (pl : Plot) (fN : ℕ) :
    envEq (plotSketchDataChunkSetUp pl fN) pl := by
  unfold plotSketchDataChunkSetUp
  lift_lets
  extract_lets
  split
  · exact envEq_refl pl
  · split
    · split
      · exact ⟨rfl, rfl, rfl⟩
      · split
        · exact ⟨rfl, rfl, rfl⟩
        · exact ⟨rfl, rfl, rfl⟩
    · exact ⟨rfl, rfl, rfl⟩

/-- `plotSketchDataAdd` touches only the sketch pool, the lists and the
draw cursor: figures and the render flag pass through. -/
theorem plotSketchDataAdd_env (pl : Plot) (fN : ℕ) (X Y : Val) :
    envEq (plotSketchDataAdd pl fN X Y) pl := by
  unfold plotSketchDataAdd
  lift_lets
  extract_lets
  split
  · split
    · split
      · exact envEq_trans (plotSketchDataChunkSetUp_env _ _) ⟨rfl, rfl, rfl⟩
      · exact ⟨rfl, rfl, rfl⟩
    · exact envEq_refl pl
  · exact envEq_refl pl

/-- The sketch-list recycling walk touches only the sketch pool and the
garbage head: figures and the render flag pass through. -/
theorem sketchRecycle_env (fuel : ℕ) : ∀ pl hN, envEq (sketchRecycle fuel pl hN) pl := by
  induction fuel with
  | zero => intro pl hN; exact envEq_refl pl
  | succ f ih =>
      intro pl hN
      unfold sketchRecycle
      lift_lets
      extract_lets
      split
      · exact envEq_trans (ih _ _) ⟨rfl, rfl, rfl⟩
      · exact envEq_refl pl

/-- `plotSketchGarbage` touches only the sketch lists and the draw
cursors: figures and the render flag pass through. -/
theorem plotSketchGarbage_env (pl : Plot) : envEq (plotSketchGarbage pl) pl := by
  unfold plotSketchGarbage
  lift_lets
  extract_lets
  exact envEq_trans ⟨rfl, rfl, rfl⟩ (sketchRecycle_env _ _ _)

/-- Appending two points to a figure's sketch leaves figures and the
render flag unchanged. -/
theorem addTwice_env (pl : Plot) (fN : ℕ) (a b c d : Val) :
    envEq (plotSketchDataAdd (plotSketchDataAdd pl fN a b) fN c d) pl :=
  envEq_trans (plotSketchDataAdd_env _ _ _ _) (plotSketchDataAdd_env _ _ _ _)

/-- The LINE/DASH trial loop touches only the sketch pool and the draw
cursor of its figure: figures and the render flag pass through. -/
theorem lineTrialLoop_env (fuel : ℕ) :
    ∀ dN xN yN xNR yNR sX oX sY oY ncolor fwidth fN top_N st,
    envEq (lineTrialLoop fuel dN xN yN xNR yNR sX oX sY oY ncolor fwidth fN top_N st)
      st.pl := by
  induction fuel with
  | zero => intro _ _ _ _ _ _ _ _ _ _ _ _ _ st; exact envEq_refl st.pl
  | succ f ih =>
      intro dN xN yN xNR yNR sX oX sY oY ncolor fwidth fN top_N st
      unfold lineTrialLoop
      lift_lets
      extract_lets
      split
      · split
        · exact ⟨rfl, rfl, rfl⟩
        · dsimp only
          repeat' split
          all_goals
            first
              | exact ⟨rfl, rfl, rfl⟩
              | exact envEq_trans ⟨rfl, rfl, rfl⟩ (addTwice_env _ _ _ _ _ _)
              | exact envEq_trans (ih _ _ _ _ _ _ _ _ _ _ _ _ _ _) ⟨rfl, rfl, rfl⟩
              | exact envEq_trans (ih _ _ _ _ _ _ _ _ _ _ _ _ _ _)
                  (addTwice_env _ _ _ _ _ _)
      · try dsimp only
        split
        all_goals
          first
            | exact ⟨rfl, rfl, rfl⟩
            | exact envEq_trans (ih _ _ _ _ _ _ _ _ _ _ _ _ _ _) ⟨rfl, rfl, rfl⟩

/-- The DOT trial loop touches only the sketch pool and the draw cursor
of its figure: figures and the render flag pass through. -/
theorem dotTrialLoop_env (fuel : ℕ) :
    ∀ dN xN yN xNR yNR sX oX sY oY ncolor fwidth fN top_N pl rN id_N kN_cached,
    envEq (dotTrialLoop fuel dN xN yN xNR yNR sX oX sY oY ncolor fwidth fN top_N
      pl rN id_N kN_cached) pl := by
  induction fuel with
  | zero => intro _ _ _ _ _ _ _ _ _ _ _ _ _ pl _ _ _; exact envEq_refl pl
  | succ f ih =>
      intro dN xN yN xNR yNR sX oX sY oY ncolor fwidth fN top_N pl rN id_N kN_cached
      unfold dotTrialLoop
      lift_lets
      extract_lets
      split
      · split
        · exact ⟨rfl, rfl, rfl⟩
        · dsimp only
          repeat' split
          all_goals
            first
              | exact ⟨rfl, rfl, rfl⟩
              | exact envEq_trans ⟨rfl, rfl, rfl⟩ (plotSketchDataAdd_env _ _ _ _)
              | exact envEq_trans (ih _ _ _ _ _ _ _ _ _ _ _ _ _ _ _ _ _) ⟨rfl, rfl, rfl⟩
              | exact envEq_trans (ih _ _ _ _ _ _ _ _ _ _ _ _ _ _ _ _ _)
                  (plotSketchDataAdd_env _ _ _ _)
      · try dsimp only
        split
        all_goals
          first
            | exact ⟨rfl, rfl, rfl⟩
            | exact envEq_trans (ih _ _ _ _ _ _ _ _ _ _ _ _ _ _ _ _ _) ⟨rfl, rfl, rfl⟩

/-- One trial step for a figure leaves the figure table and the render
flag unchanged: it only advances sketches, caches and draw cursors. -/
theorem plotDrawFigureTrial_env (pl : Plot) (fN : ℕ) :
    envEq (plotDrawFigureTrial pl fN) pl := by
  unfold plotDrawFigureTrial
  lift_lets
  extract_lets
  split
  · exact envEq_trans (lineTrialLoop_env _ _ _ _ _ _ _ _ _ _ _ _ _ _ _)
      (envEq_trans (plotSketchDataChunkSetUp_env _ _)
        (envEq_trans (plotDataRangeCacheFetch_env _ _ _)
          (plotDataRangeCacheFetch_env _ _ _)))
  · exact envEq_trans (dotTrialLoop_env _ _ _ _ _ _ _ _ _ _ _ _ _ _ _ _ _ _)
      (envEq_trans (plotSketchDataChunkSetUp_env _ _)
        (envEq_trans (plotDataRangeCacheFetch_env _ _ _)
          (plotDataRangeCacheFetch_env _ _ _)))

/-- Unfolding equation of `trialAllLoop` at a positive budget. -/
theorem trialAllLoop_succ (b : ℕ) (pl : Plot) (figs : List ℕ) :
    trialAllLoop (b + 1) pl figs =
      if selectDrawFigure pl figs ≥ 0
      then trialAllLoop b (plotDrawFigureTrial pl (selectDrawFigure pl figs).toNat) figs
      else { plotSketchGarbage pl with draw_in_progress := false } := rfl

/-- The scheduling loop leaves the figure table unchanged. -/
theorem trialAllLoop_fig (b : ℕ) : ∀ pl figs,
    (trialAllLoop b pl figs).figure = pl.figure ∧
    (trialAllLoop b pl figs).figuresMax = pl.figuresMax := by
  induction b with
  | zero => intro pl figs; exact ⟨rfl, rfl⟩
  | succ b ih =>
      intro pl figs
      rw [trialAllLoop_succ]
      split
      · obtain ⟨h1, h2⟩ :=
          ih (plotDrawFigureTrial pl (selectDrawFigure pl figs).toNat) figs
        have he := plotDrawFigureTrial_env pl (selectDrawFigure pl figs).toNat
        exact ⟨h1.trans he.1, h2.trans he.2.1⟩
      · have he := plotSketchGarbage_env pl
        exact ⟨he.1, he.2.1⟩

/-- The paint-order worklist depends only on the figure table. -/
theorem drawFIGS_congr {a b : Plot} (h1 : a.figure = b.figure)
    (h2 : a.figuresMax = b.figuresMax) : drawFIGS a = drawFIGS b := by
  unfold drawFIGS
  rw [h1, h2]

/-- Unfolding equation of `drawInit` on a cons cell. -/
theorem drawInit_cons (pl : Plot) (f : ℕ) (fs : List ℕ) :
    drawInit pl (f :: fs) =
      drawInit
        ({ pl with
           draw := updF pl.draw f
             ({ pl.draw f with
                sketch := .STARTED
                rN := (pl.data (pl.figure f).data_N).head_N
                id_N := (pl.data (pl.figure f).data_N).id_N
                skipped := false
                line := false }) }) fs := rfl

/-- The frame-start initialization touches only the draw cursors. -/
theorem drawInit_env (figs : List ℕ) : ∀ pl, envEq (drawInit pl figs) pl := by
  induction figs with
  | nil => intro pl; exact envEq_refl pl
  | cons f fs ih =>
      intro pl
      rw [drawInit_cons]
      exact envEq_trans (ih _) ⟨rfl, rfl, rfl⟩

/-- A frame called while a render is in progress neither re-initializes
the cursors nor changes the worklist: it just continues the loop. -/
theorem plotDrawFigureTrialAll_inprog (b : ℕ) (q : Plot)
    (hq : q.draw_in_progress = true) :
    plotDrawFigureTrialAll b q = trialAllLoop b q (drawFIGS q) := by
  unfold plotDrawFigureTrialAll
  dsimp only
  rw [if_neg (fun hc => Bool.noConfusion (hq.symm.trans hc))]

/-- A frame called with no render in progress initializes the cursors,
raises the flag and runs the loop on the worklist. -/
theorem plotDrawFigureTrialAll_start (b : ℕ) (q : Plot)
    (hq : q.draw_in_progress = false) :
    plotDrawFigureTrialAll b q =
      trialAllLoop b
        ({ drawInit q (drawFIGS q) with draw_in_progress := true }) (drawFIGS q) := by
  unfold plotDrawFigureTrialAll
  dsimp only
  rw [if_pos hq]

/-- Unfolding equation of `runFramesUntilDone` on a cons cell. -/
theorem runFramesUntilDone_cons (b : ℕ) (bs : List ℕ) (pl : Plot) :
    runFramesUntilDone (b :: bs) pl =
      if (plotDrawFigureTrialAll b pl).draw_in_progress = true
      then runFramesUntilDone bs (plotDrawFigureTrialAll b pl)
      else plotDrawFigureTrialAll b pl := rfl

/-- Budget composition: as long as the first `a` loop iterations did
not reach the finish branch, running `a + b` iterations is running `b`
more from where the `a` iterations stopped. -/
theorem trialAllLoop_comp (a : ℕ) : ∀ b pl figs,
    (trialAllLoop a pl figs).draw_in_progress = true →
    trialAllLoop (a + b) pl figs = trialAllLoop b (trialAllLoop a pl figs) figs := by
  induction a with
  | zero =>
      intro b pl figs h
      rw [Nat.zero_add]
      rfl
  | succ a ih =>
      intro b pl figs h
      rw [show (a + 1) + b = (a + b) + 1 from by omega]
      rw [trialAllLoop_succ] at h
      rw [trialAllLoop_succ, trialAllLoop_succ]
      by_cases hs : selectDrawFigure pl figs ≥ 0
      · rw [if_pos hs] at h
        simp only [if_pos hs]
        exact ih b _ figs h
      · rw [if_neg hs] at h
        exact Bool.noConfusion h

/-- Budget absorption: once the loop has reached the finish branch
within `a` iterations, any further budget changes nothing. -/
theorem trialAllLoop_absorb (a : ℕ) : ∀ b pl figs,
    pl.draw_in_progress = true →
    (trialAllLoop a pl figs).draw_in_progress = false →
    trialAllLoop (a + b) pl figs = trialAllLoop a pl figs := by
  induction a with
  | zero =>
      intro b pl figs h1 h2
      have h2' : pl.draw_in_progress = false := h2
      rw [h1] at h2'
      exact Bool.noConfusion h2'
  | succ a ih =>
      intro b pl figs h1 h2
      rw [show (a + 1) + b = (a + b) + 1 from by omega]
      rw [trialAllLoop_succ] at h2
      rw [trialAllLoop_succ, trialAllLoop_succ]
      by_cases hs : selectDrawFigure pl figs ≥ 0
      · rw [if_pos hs] at h2
        simp only [if_pos hs]
        exact ih b _ figs
          (((plotDrawFigureTrial_env pl _).2.2).trans h1) h2
      · simp only [if_neg hs]

/-- Any run of frames on an in-progress state is some prefix of the
single loop; and once the run finishes, every at-least-as-large single
budget lands on exactly the same state. -/
theorem runFrames_as_loop (bs : List ℕ) : ∀ q, q.draw_in_progress = true →
    ∃ a, a ≤ bs.sum ∧ runFramesUntilDone bs q = trialAllLoop a q (drawFIGS q) ∧
      ((runFramesUntilDone bs q).draw_in_progress = false →
        ∀ B, bs.sum ≤ B →
          trialAllLoop B q (drawFIGS q) = runFramesUntilDone bs q) := by
  induction bs with
  | nil =>
      intro q hq
      refine ⟨0, Nat.le_refl 0, rfl, ?_⟩
      intro hdone B hB
      have hq' : q.draw_in_progress = false := hdone
      rw [hq] at hq'
      exact Bool.noConfusion hq'
  | cons b bs ih =>
      intro q hq
      rw [runFramesUntilDone_cons, plotDrawFigureTrialAll_inprog b q hq]
      rw [List.sum_cons]
      have hfig := trialAllLoop_fig b q (drawFIGS q)
      have hfigs : drawFIGS (trialAllLoop b q (drawFIGS q)) = drawFIGS q :=
        drawFIGS_congr hfig.1 hfig.2
      by_cases h1 : (trialAllLoop b q (drawFIGS q)).draw_in_progress = true
      · rw [if_pos h1]
        obtain ⟨a, ha, heq, hfin⟩ := ih (trialAllLoop b q (drawFIGS q)) h1
        rw [hfigs] at heq hfin
        refine ⟨b + a, Nat.add_le_add_left ha b, ?_, ?_⟩
        · rw [heq]
          exact (trialAllLoop_comp b a q (drawFIGS q) h1).symm
        · intro hdone B hB
          rw [show B = b + (B - b) from by omega]
          rw [trialAllLoop_comp b (B - b) q (drawFIGS q) h1]
          exact hfin hdone (B - b) (by omega)
      · rw [if_neg h1]
        refine ⟨b, Nat.le_add_right b bs.sum, rfl, ?_⟩
        intro hdone B hB
        have h1' : (trialAllLoop b q (drawFIGS q)).draw_in_progress = false := by
          cases hh : (trialAllLoop b q (drawFIGS q)).draw_in_progress
          · rfl
          · exact absurd hh h1
        rw [show B = b + (B - b) from by omega]
        exact trialAllLoop_absorb b (B - b) q (drawFIGS q) hq h1'

/-- **C8.** The draw engine is resumable: starting from an idle engine
state (`draw_in_progress = 0`), running any sequence of frames — each
`plotDrawFigureTrialAll` call cut by its own deadline budget — until
`draw_in_progress` returns to `0` produces exactly the state (in
particular the same final `todraw` sketch list) of a single
`plotDrawFigureTrialAll` call whose budget `B` covers the whole work:
an interrupted multi-frame render equals an unlimited-budget
single-frame render on identical data. -/
theorem C8_theorem (pl : Plot) (b : ℕ) (bs : List ℕ) (B : ℕ)
    (h0 : pl.draw_in_progress = false)
    (hdone : (runFramesUntilDone (b :: bs) pl).draw_in_progress = false)
    (hB : (b :: bs).sum ≤ B) :
    runFramesUntilDone (b :: bs) pl = plotDrawFigureTrialAll B pl := by
  rw [runFramesUntilDone_cons] at hdone ⊢
  rw [plotDrawFigureTrialAll_start b pl h0] at hdone ⊢
  rw [plotDrawFigureTrialAll_start B pl h0]
  rw [List.sum_cons] at hB
  set figs := drawFIGS pl with hfigs
  set pl1 := ({ drawInit pl figs with draw_in_progress := true }) with hpl1
  have hp1t : pl1.draw_in_progress = true := by rw [hpl1]
  have hfigs1 : drawFIGS pl1 = figs := by
    rw [hpl1, hfigs]
    exact drawFIGS_congr (drawInit_env figs pl).1 (drawInit_env figs pl).2.1
  by_cases h1 : (trialAllLoop b pl1 figs).draw_in_progress = true
  · rw [if_pos h1] at hdone ⊢
    obtain ⟨a, ha, heq, hfin⟩ := runFrames_as_loop bs (trialAllLoop b pl1 figs) h1
    have hf := trialAllLoop_fig b pl1 figs
    have hfigsA : drawFIGS (trialAllLoop b pl1 figs) = figs :=
      (drawFIGS_congr hf.1 hf.2).trans hfigs1
    rw [hfigsA] at heq hfin
    rw [show B = b + (B - b) from by omega]
    rw [trialAllLoop_comp b (B - b) pl1 figs h1]
    exact (hfin hdone (B - b) (by omega)).symm
  · rw [if_neg h1] at hdone ⊢
    rw [show B = b + (B - b) from by omega]
    exact (trialAllLoop_absorb b (B - b) pl1 figs hp1t hdone).symm

/-- Witness for `C8_theorem`: on the idle demo state one frame of
budget `1` already completes the render, and it coincides with the
single covering-budget call. -/
theorem C8_theorem_witness :
    runFramesUntilDone [1] trialAllDemoPlot =
      plotDrawFigureTrialAll 1 trialAllDemoPlot :=
  C8_theorem trialAllDemoPlot 1 [] 1 rfl (by decide) (by decide)

end GP
